import Mathlib

/-!
# vanityDomainManager: the job reconciliation pipeline

A shallow embedding of the Go packages `jobs`, `verifiers`, `kubernetes`,
`queueManager` and `config`.

Conventions of the embedding.

* A Go `error` is an `Option String`: `none` is `nil`, `some s` is an error whose
  `Error()` text is `s`.  `fmt.Errorf` is rendered by concatenation.
* Go strings are byte strings.  Host names, resource names and the literals of the
  program are ASCII, where bytes and characters coincide, so `len`, slicing and
  `strings.ReplaceAll` are rendered on characters.
* Everything the program does to the outside world is recorded as an `Event`; a
  function that performs such calls returns its Go result together with the list
  of events it produced, in program order.
* The outside world answers through the fields of `Env`.  Within one delivery the
  program never issues the same request twice (reading the clock apart, which is
  indexed by the number of the reading), so one answer per request is general.
-/

set_option linter.dupNamespace false

namespace VanityDomainManager

/-! ## Go values -/

/-- A Go `error` value: `none` is `nil`. -/
abbrev GoError := Option String

/-- The rendering of an `error` under the verbs `%v`, `%s` and `%w`. -/
def fmtErr : GoError → String
  | none => "<nil>"
  | some e => e

/-- The rendering of a `[]string` under `%v`. -/
def fmtStrings (l : List String) : String :=
  "[" ++ " ".intercalate l ++ "]"

/-- Whether `sub` occurs in `s` as a contiguous run, on character lists. -/
def containsChars (s sub : List Char) : Bool :=
  s.tails.any (fun t => sub.isPrefixOf t)

/-- Go `strings.Contains`. -/
def stringsContains (s sub : String) : Bool :=
  containsChars s.data sub.data

/-- Go `s[:len(s)-1]`, for a string of length at least one. -/
def dropLastByte (s : String) : String :=
  String.mk s.data.dropLast

/-- Conversion of a Go `int` to `uint64`. -/
def toUint64 (n : Int) : Nat :=
  (n % (2 : Int) ^ 64).toNat

/-- Two's complement wrap-around of an integer into `int64`. -/
def wrapInt64 (x : Int) : Int :=
  (x + (2 : Int) ^ 63) % (2 : Int) ^ 64 - (2 : Int) ^ 63

/-- Go `1 << k` at type `int64` (the type of `time.Duration`), `k` unsigned. -/
def shl1Int64 (k : Nat) : Int :=
  if k ≥ 64 then 0 else wrapInt64 ((2 : Int) ^ k)

/-- Go `time.Second`, in nanoseconds. -/
def timeSecond : Int := 1000000000

/-! ## Package `jobs` -/

structure DomainCustomCert where
  Key : String
  Cert : String
deriving DecidableEq, Repr

structure VanityDomain where
  VanityDomain : String
  DesiredDNSTargetType : String
  DesiredCNAMETarget : String
  DesiredARecordTargets : List String
  ProvidedCertificate : Option DomainCustomCert
  TargetServiceName : String
  TargetServicePort : Int
deriving DecidableEq, Repr

structure DomainJob where
  Type_ : String
  Domain : VanityDomain
  ReferenceID : String
deriving DecidableEq, Repr

structure JobStatus where
  Success : Bool
  ReferenceID : String
  ErrorMessage : String
  Dropped : Bool
deriving DecidableEq, Repr

/-! ## Kubernetes objects (the fields the program reads or writes) -/

structure ObjectMeta where
  Name : String
  Namespace : String
  Labels : List (String × String)
  Annotations : List (String × String)
  ResourceVersion : String
deriving DecidableEq, Repr

structure Secret where
  ObjectMeta : ObjectMeta
  Type_ : String
  Data : List (String × String)
deriving DecidableEq, Repr

structure IngressServiceBackend where
  Name : String
  PortNumber : Int
deriving DecidableEq, Repr

structure HTTPIngressPath where
  PathType : String
  Backend : IngressServiceBackend
deriving DecidableEq, Repr

structure IngressRule where
  Host : String
  Paths : List HTTPIngressPath
deriving DecidableEq, Repr

structure IngressTLS where
  Hosts : List String
  SecretName : String
deriving DecidableEq, Repr

structure IngressSpec where
  Rules : List IngressRule
  TLS : List IngressTLS
deriving DecidableEq, Repr

structure Ingress where
  ObjectMeta : ObjectMeta
  Spec : IngressSpec
deriving DecidableEq, Repr

/-! ## Certificates -/

/-- A resolved address, `net.IP`: its bytes. -/
abbrev IP := List Nat

/-- The fields of `x509.Certificate` the program reads, and its raw bytes. -/
structure Certificate where
  Raw : List Nat
  NotBefore : Int
  NotAfter : Int
deriving DecidableEq, Repr

/-- The value of `x509.VerifyOptions` built by `ValidateTLSCert`; `Roots` is the
system pool, `KeyUsages` is always `[ExtKeyUsageServerAuth]`. -/
structure VerifyOptions where
  DNSName : String
  Roots : List (List Nat)
  CurrentTime : Int
  KeyUsages : List String
deriving DecidableEq, Repr

/-! ## Events and the environment -/

/-- An argument of a logging call. -/
inductive LogArg where
  | str (s : String)
  | int (n : Int)
  | duration (d : Int)
  | err (e : GoError)
deriving DecidableEq, Repr

/-- One call of the program to the outside world. -/
inductive Event where
  /-- `q.logger.Printf(format, args...)` -/
  | qPrintf (format : String) (args : List LogArg)
  /-- `q.logger.Println(args...)` -/
  | qPrintln (args : List LogArg)
  /-- `log.Println(args...)` of the standard logger -/
  | logPrintln (args : List LogArg)
  | lookupCNAME (host : String)
  | lookupIP (host : String)
  | timeNow
  | systemCertPool
  | secretGet (ns name : String)
  | secretCreate (ns : String) (s : Secret)
  | secretUpdate (ns : String) (s : Secret)
  | secretDelete (ns name : String)
  | ingressGet (ns name : String)
  | ingressCreate (ns : String) (i : Ingress)
  | ingressUpdate (ns : String) (i : Ingress)
  | ingressDelete (ns name : String)
  /-- `js.Publish(ctx, subject, data)`, `data` being the JSON encoding of the status -/
  | publish (subject : String) (status : JobStatus)
  /-- `msg.Ack()` -/
  | ack
  /-- `msg.NakWithDelay(d)`, `d` in nanoseconds -/
  | nakWithDelay (d : Int)
deriving DecidableEq, Repr

abbrev Trace := List Event

/-- The answers of the outside world and of the library functions the program
calls without implementing them. -/
structure Env where
  /-- `net.LookupCNAME` -/
  lookupCNAME : String → String × GoError
  /-- `net.LookupIP` -/
  lookupIP : String → List IP × GoError
  /-- `net.IP.String` -/
  ipString : IP → String
  /-- `pem.Decode`: the bytes of the first block, `none` when there is no block -/
  pemDecode : String → Option (List Nat)
  /-- `x509.ParseCertificate` -/
  x509Parse : List Nat → Except String Certificate
  /-- `time.Now()`, by the number of the reading within the validation -/
  now : Nat → Int
  /-- `x509.SystemCertPool` -/
  systemCertPool : Except String (List (List Nat))
  /-- `(*x509.Certificate).Verify` -/
  certVerify : Certificate → VerifyOptions → GoError
  /-- `Secrets(ns).Get`: the object returned (empty on error) and the error -/
  secretGet : String → String → Secret × GoError
  secretCreate : String → Secret → GoError
  secretUpdate : String → Secret → GoError
  secretDelete : String → String → GoError
  /-- `Ingresses(ns).Get` -/
  ingressGet : String → String → Ingress × GoError
  ingressCreate : String → Ingress → GoError
  ingressUpdate : String → Ingress → GoError
  ingressDelete : String → String → GoError
  /-- `js.Publish` on a subject with the JSON encoding of a status -/
  publish : String → JobStatus → GoError
  /-- `json.Unmarshal` of a message payload into a `DomainJob` -/
  unmarshalJob : String → Except String DomainJob

/-! ## Package `verifiers` -/

/-- The loop of `VerifyDomain` over the resolved addresses: the error of the first
address that is not among the desired targets. -/
def checkIPs (env : Env) (targets : List String) : List IP → GoError
  | [] => none
  | ip :: rest =>
    if targets.contains (env.ipString ip) then checkIPs env targets rest
    else some ("Incorrect A record value: " ++ env.ipString ip ++
      ", expected one of: " ++ fmtStrings targets)

/-- `verifiers.VerifyDomain` (dns.go). -/
def VerifyDomain (env : Env) (domain : VanityDomain) : GoError × Trace :=
  if domain.DesiredDNSTargetType = "CNAME" then
    let r := env.lookupCNAME domain.VanityDomain
    let cname := r.1
    let err := r.2
    let t := [Event.lookupCNAME domain.VanityDomain]
    if err ≠ none ∨ cname = "" then
      (some ("Error or empty cname: " ++ fmtErr err), t)
    else if cname.length > 1 ∧ dropLastByte cname ≠ domain.DesiredCNAMETarget then
      (some ("Incorrect CNAME value: " ++ cname ++ ", expected: " ++
        domain.DesiredCNAMETarget), t)
    else (none, t)
  else if domain.DesiredDNSTargetType = "A" then
    let r := env.lookupIP domain.VanityDomain
    let ips := r.1
    let err := r.2
    let t := [Event.lookupIP domain.VanityDomain]
    if err ≠ none ∨ ips.length = 0 then
      (some ("Error or empty A record: " ++ fmtErr err), t)
    else (checkIPs env domain.DesiredARecordTargets ips, t)
  else
    (some ("Unsupported DNS target type: " ++ domain.DesiredDNSTargetType), [])

/-- `verifiers.DecodeCertPEM` (tls.go). -/
def DecodeCertPEM (env : Env) (certPEM : String) : Except String (List Nat) :=
  match env.pemDecode certPEM with
  | none => .error "failed to decode PEM block"
  | some bytes => .ok bytes

/-- `verifiers.ParseCertificate` (tls.go). -/
def ParseCertificate (env : Env) (certDER : List Nat) : Except String Certificate :=
  match env.x509Parse certDER with
  | .error e => .error ("failed to parse certificate: " ++ e)
  | .ok cert => .ok cert

/-- `verifiers.ValidateTLSCert` (tls.go).  The function dereferences
`domain.ProvidedCertificate`; its only caller has checked the pointer against
`nil` and the certificate it points to is passed here as `pc`. -/
def ValidateTLSCert (env : Env) (domain : VanityDomain) (pc : DomainCustomCert) :
    GoError × Trace :=
  match DecodeCertPEM env pc.Cert with
  | .error e => (some e, [])
  | .ok certDER =>
    match ParseCertificate env certDER with
    | .error e => (some e, [])
    | .ok cert =>
      if env.now 0 < cert.NotBefore then
        (some "certificate is not yet valid", [Event.timeNow])
      else if env.now 1 > cert.NotAfter then
        (some "certificate has expired", [Event.timeNow, Event.timeNow])
      else
        match env.systemCertPool with
        | .error e =>
          (some ("failed to get system cert pool: " ++ e),
            [Event.timeNow, Event.timeNow, Event.systemCertPool])
        | .ok rootCAs =>
          let opts : VerifyOptions :=
            { DNSName := domain.VanityDomain, Roots := rootCAs,
              CurrentTime := env.now 2, KeyUsages := ["ExtKeyUsageServerAuth"] }
          let t := [Event.timeNow, Event.timeNow, Event.systemCertPool, Event.timeNow]
          match env.certVerify cert opts with
          | some e => (some ("certificate verification failed: " ++ e), t)
          | none => (none, t)

/-! ## Package `kubernetes` -/

/-- The receiver `*KubeClient` without its client handle, whose calls are the
`secret*` and `ingress*` fields of `Env`. -/
structure KubeClient where
  Namespace : String
  CertManagerIssuer : String
  ServiceName : String
  ServicePort : Int
deriving DecidableEq, Repr

/-- `safeDomainName`: `strings.ReplaceAll(domain, ".", "-")`. -/
def safeDomainName (domain : String) : String :=
  String.mk (domain.data.map (fun ch => if ch = '.' then '-' else ch))

/-- The `secret` value built at the head of `SetTLS`. -/
def tlsSecret (c : KubeClient) (job : VanityDomain) (pc : DomainCustomCert) : Secret :=
  { ObjectMeta :=
      { Name := safeDomainName job.VanityDomain ++ "-tls-cert"
        Namespace := c.Namespace
        Labels := [("Domain", job.VanityDomain), ("Provided", "true")]
        Annotations := []
        ResourceVersion := "" }
    Type_ := "kubernetes.io/tls"
    Data := [("ca.crt", ""), ("tls.key", pc.Key), ("tls.crt", pc.Cert)] }

/-- `(*KubeClient).SetTLS`.  The function dereferences `job.ProvidedCertificate`;
its only caller has checked the pointer against `nil` and the certificate it points
to is passed here as `pc`.  The update is sent with `secret`, not with the fetched
object, so the assignments to `existingSecret` leave no mark. -/
def SetTLS (env : Env) (c : KubeClient) (job : VanityDomain) (pc : DomainCustomCert) :
    GoError × Trace :=
  let secret := tlsSecret c job pc
  let name := safeDomainName job.VanityDomain ++ "-tls-cert"
  let err := (env.secretGet c.Namespace name).2
  let t := [Event.secretGet c.Namespace name] ++
    (if err ≠ none then [Event.logPrintln [LogArg.err err]] else [])
  if err ≠ none ∧ stringsContains (fmtErr err) "not found" = true then
    match env.secretCreate c.Namespace secret with
    | some e => (some e, t ++ [Event.secretCreate c.Namespace secret])
    | none => (none, t ++ [Event.secretCreate c.Namespace secret])
  else
    match env.secretUpdate c.Namespace secret with
    | some e => (some e, t ++ [Event.secretUpdate c.Namespace secret])
    | none => (none, t ++ [Event.secretUpdate c.Namespace secret])

/-- `(*KubeClient).UnSetTLS`. -/
def UnSetTLS (env : Env) (c : KubeClient) (job : VanityDomain) : GoError × Trace :=
  let name := safeDomainName job.VanityDomain ++ "-tls-cert"
  let err := env.secretDelete c.Namespace name
  let t := [Event.secretDelete c.Namespace name]
  if err ≠ none ∧ ¬ (stringsContains (fmtErr err) "not found" = true) then (err, t)
  else (none, t)

/-- The `ingress` value of `SetVanityDomain` as it stands before the fetch: the
literal, and the issuer annotation set when no certificate is provided and an
issuer is configured. -/
def vanityIngress (c : KubeClient) (job : VanityDomain) : Ingress :=
  { ObjectMeta :=
      { Name := safeDomainName job.VanityDomain
        Namespace := c.Namespace
        Labels := []
        Annotations :=
          if job.ProvidedCertificate = none ∧ c.CertManagerIssuer ≠ "" then
            [("cert-manager.io/cluster-issuer", c.CertManagerIssuer)]
          else []
        ResourceVersion := "" }
    Spec :=
      { Rules :=
          [{ Host := job.VanityDomain
             Paths :=
               [{ PathType := "ImplementationSpecific"
                  Backend := { Name := c.ServiceName, PortNumber := c.ServicePort } }] }]
        TLS :=
          [{ Hosts := [job.VanityDomain]
             SecretName := safeDomainName job.VanityDomain ++ "-tls-cert" }] } }

/-- `(*KubeClient).SetVanityDomain`. -/
def SetVanityDomain (env : Env) (c : KubeClient) (job : VanityDomain) : GoError × Trace :=
  let ingress := vanityIngress c job
  let r := env.ingressGet c.Namespace ingress.ObjectMeta.Name
  let existingIngress := r.1
  let err := r.2
  let t := [Event.ingressGet c.Namespace ingress.ObjectMeta.Name] ++
    (if err ≠ none then [Event.logPrintln [LogArg.err err]] else [])
  if err ≠ none ∧ stringsContains (fmtErr err) "not found" = true then
    match env.ingressCreate c.Namespace ingress with
    | some e =>
      (some ("failed to create ingress for vanity domain " ++ job.VanityDomain ++ ": " ++ e),
        t ++ [Event.ingressCreate c.Namespace ingress])
    | none => (none, t ++ [Event.ingressCreate c.Namespace ingress])
  else
    let updated : Ingress :=
      { ObjectMeta :=
          { existingIngress.ObjectMeta with
            Annotations := ingress.ObjectMeta.Annotations
            Labels := ingress.ObjectMeta.Labels }
        Spec := ingress.Spec }
    match env.ingressUpdate c.Namespace updated with
    | some e => (some e, t ++ [Event.ingressUpdate c.Namespace updated])
    | none => (none, t ++ [Event.ingressUpdate c.Namespace updated])

/-- `(*KubeClient).UnSetVanityDomain`. -/
def UnSetVanityDomain (env : Env) (c : KubeClient) (job : VanityDomain) : GoError × Trace :=
  let name := safeDomainName job.VanityDomain
  let err := env.ingressDelete c.Namespace name
  let t := [Event.ingressDelete c.Namespace name]
  if err ≠ none ∧ ¬ (stringsContains (fmtErr err) "not found" = true) then (err, t)
  else (none, t)

/-! ## Package `queueManager` -/

/-- The fields of `jetstream.ConsumerConfig` set by the program. -/
structure ConsumerConfig where
  Name : String
  Durable : String
  Description : String
  AckPolicy : String
  FilterSubject : String
  MaxDeliver : Int
deriving DecidableEq, Repr

/-- A delivered `jetstream.Msg`: its subject, its payload and the `NumDelivered`
field (a `uint64`) of its metadata.  The program discards the error of
`msg.Metadata()`; a message handed over by a JetStream consumer carries metadata. -/
structure Msg where
  Subject : String
  Data : String
  NumDelivered : Nat
deriving DecidableEq, Repr

/-- What the receiver `*queueManager` and the process-wide singletons give the
worker: the outside world, the Kubernetes client of `kubernetes.GetClient()` and
`config.Config().System().Environment`. -/
structure QueueManager where
  env : Env
  kube : KubeClient
  environment : String

/-- `(*queueManager).GetJobSubject`. -/
def GetJobSubject (q : QueueManager) (sub : String) : String :=
  q.environment ++ ".vanityDomainVerifier.domainjob." ++ sub

/-- `(*queueManager).GetStatusSubject`. -/
def GetStatusSubject (q : QueueManager) (sub : String) : String :=
  q.environment ++ ".vanityDomainVerifier.status." ++ sub

/-- The `config` value built by `startDomainJobWorker` and handed to
`domainJobHandler`. -/
def workerConfig (q : QueueManager) : ConsumerConfig :=
  { Name := "vanityDomainVerifier-domainjob-worker"
    Durable := "vanityDomainVerifier-domainjob-worker"
    Description := "The consumer for the vanityDomainVerifier"
    AckPolicy := "AckExplicitPolicy"
    FilterSubject := GetJobSubject q ">"
    MaxDeliver := 10 }

/-- `(*queueManager).SendStatusUpdate`.  `json.Marshal` of a struct of two booleans
and two strings does not fail; the payload is carried as the status itself. -/
def SendStatusUpdate (q : QueueManager) (referenceID : String) (success : Bool)
    (errorMessage : String) (dropped : Bool) : GoError × Trace :=
  let msg : JobStatus :=
    { Success := success, ReferenceID := referenceID,
      ErrorMessage := errorMessage, Dropped := dropped }
  let subjectName := GetStatusSubject q referenceID
  match q.env.publish subjectName msg with
  | some e =>
    (some ("publish status update to " ++ subjectName ++ ": " ++ e),
      [Event.publish subjectName msg])
  | none =>
    (none, [Event.publish subjectName msg,
      Event.qPrintf "Status update published to subject %s" [LogArg.str subjectName]])

/-- The delay computed by `ackornack`:
`baseDelay * time.Duration(1<<(deliveryCount-1))` with `baseDelay` 30 seconds,
`deliveryCount` a `uint64` and the product an `int64`. -/
def nakDelay (deliveryCount : Nat) : Int :=
  wrapInt64 (30 * timeSecond * shl1Int64 ((deliveryCount + 2 ^ 64 - 1) % 2 ^ 64))

/-- `(*queueManager).ackornack`. -/
def ackornack (q : QueueManager) (config : ConsumerConfig) (msg : Msg)
    (referenceID : String) (hasError : Bool) (errorMessage : String) : Trace :=
  if hasError = true then
    let deliveryCount := msg.NumDelivered
    let t := [Event.qPrintf "Error: %s" [LogArg.str errorMessage]]
    if deliveryCount ≥ toUint64 config.MaxDeliver then
      let t := t ++ [Event.qPrintf
        "Message %s has reached max retries (%d). Remove from the queue."
        [LogArg.str msg.Subject, LogArg.int config.MaxDeliver]]
      let r := SendStatusUpdate q referenceID false errorMessage true
      let t := t ++ r.2 ++
        (if r.1 ≠ none then
          [Event.qPrintf "Failed to send status update for job %s: %s"
            [LogArg.str msg.Subject, LogArg.err r.1]]
         else [])
      t ++ [Event.ack]
    else
      let r := SendStatusUpdate q referenceID false errorMessage false
      let t := t ++ r.2 ++
        (if r.1 ≠ none then
          [Event.qPrintf "Failed to send status update for job %s: %s"
            [LogArg.str msg.Subject, LogArg.err r.1]]
         else [])
      t ++ [Event.qPrintf "Message %s will be retried after backoff delay of %v."
              [LogArg.str msg.Subject, LogArg.duration (nakDelay deliveryCount)],
            Event.nakWithDelay (nakDelay deliveryCount)]
  else
    [Event.ack]

/-- `(*queueManager).configureVanityDomain`. -/
def configureVanityDomain (q : QueueManager) (referenceID : String)
    (domain : VanityDomain) : GoError × Trace :=
  let t := [Event.qPrintf "Configuring Vanity Domain %s ..." [LogArg.str domain.VanityDomain]]
  if domain.VanityDomain = "" ∨
      (domain.DesiredARecordTargets.length = 0 ∧ domain.DesiredCNAMETarget = "") ∨
      domain.DesiredDNSTargetType = "" then
    (some ("Invalid job data for vanity domain: " ++ domain.VanityDomain ++ ", skipping"), t)
  else
    let t := t ++ [Event.qPrintf "Verifying Vanity Domain %s" [LogArg.str domain.VanityDomain]]
    match VerifyDomain q.env domain with
    | (some err, tv) =>
      (some ("Domain verification failed for " ++ domain.VanityDomain ++ ": " ++ err), t ++ tv)
    | (none, tv) =>
      let t := t ++ tv ++ [Event.qPrintf "Vanity Domain %s verified successfully"
        [LogArg.str domain.VanityDomain]]
      let setDomain (t : Trace) : GoError × Trace :=
        let t := t ++ [Event.qPrintln [LogArg.str "Setting Vanity Domain in Environment"]]
        match SetVanityDomain q.env q.kube domain with
        | (some err, ts) =>
          (some ("Failed to set custom domain for " ++ domain.VanityDomain ++ ": " ++ err),
            t ++ ts)
        | (none, ts) =>
          let t := t ++ ts ++
            [Event.qPrintln [LogArg.str "Vanity Domain Set in Environment Successfully!"]]
          match SendStatusUpdate q referenceID true "" false with
          | (some err, tp) =>
            (some ("failed to send status update for " ++ domain.VanityDomain ++ ": " ++ err),
              t ++ tp)
          | (none, tp) => (none, t ++ tp)
      match domain.ProvidedCertificate with
      | some pc =>
        let t := t ++ [Event.qPrintf "Validating TLS Certificate provided for %s"
          [LogArg.str domain.VanityDomain]]
        match ValidateTLSCert q.env domain pc with
        | (some err, tc) =>
          (some ("TLS certificate validation failed for " ++ domain.VanityDomain ++ ": " ++ err),
            t ++ tc)
        | (none, tc) =>
          let t := t ++ tc ++
            [Event.qPrintln [LogArg.str "TLS Certificate Validated!"],
             Event.qPrintln [LogArg.str "Inserting TLS Certificate into environment"]]
          match SetTLS q.env q.kube domain pc with
          | (some err, ts) =>
            (some ("Failed to set TLS for " ++ domain.VanityDomain ++ ": " ++ err), t ++ ts)
          | (none, ts) =>
            setDomain (t ++ ts ++ [Event.qPrintln [LogArg.str "TLS Certificate Ready for use!"]])
      | none => setDomain t

/-- `(*queueManager).domainRemove`. -/
def domainRemove (q : QueueManager) (referenceID : String)
    (domain : VanityDomain) : GoError × Trace :=
  let t := [Event.qPrintf "Removing Vanity Domain %s" [LogArg.str domain.VanityDomain],
    Event.qPrintf "Removing TLS Certificate provided for %s" [LogArg.str domain.VanityDomain]]
  match UnSetTLS q.env q.kube domain with
  | (some err, tu) =>
    (some ("Failed to remove TLS for " ++ domain.VanityDomain ++ ": " ++ err), t ++ tu)
  | (none, tu) =>
    let t := t ++ tu ++
      [Event.qPrintf "TLS Certificiate removed for %s" [LogArg.str domain.VanityDomain],
       Event.qPrintf "Removing Vanity Domain from Environment %s"
         [LogArg.str domain.VanityDomain]]
    match UnSetVanityDomain q.env q.kube domain with
    | (some err, tu) =>
      (some ("Failed to remove Vanity Domain for " ++ domain.VanityDomain ++ ": " ++ err),
        t ++ tu)
    | (none, tu) =>
      let t := t ++ tu ++
        [Event.qPrintf "Vanity Domain %s removed from Environment Successfully!"
          [LogArg.str domain.VanityDomain]]
      match SendStatusUpdate q referenceID true "" false with
      | (some err, tp) =>
        (some ("failed to send status update for " ++ domain.VanityDomain ++ ": " ++ err),
          t ++ tp)
      | (none, tp) => (none, t ++ tp)

/-- The handler returned by `(*queueManager).domainJobHandler`, with its deferred
call of `ackornack` run at every return. -/
def domainJobHandler (q : QueueManager) (config : ConsumerConfig) (msg : Msg) : Trace :=
  let t := [Event.qPrintf "Received message on subject %s" [LogArg.str msg.Subject]]
  match q.env.unmarshalJob msg.Data with
  | .error e =>
    t ++ [Event.qPrintf "failed to unmarshal job err: %s" [LogArg.err (some e)]] ++
      ackornack q config msg "unknown" true ""
  | .ok job =>
    let referenceID := job.ReferenceID
    let done (t : Trace) : Trace :=
      t ++ [Event.qPrintln [LogArg.str "Message Processed Successfully"]] ++
        ackornack q config msg referenceID false ""
    if job.Type_ = "add" then
      let t := t ++ [Event.qPrintf "Processing Vanity Domain Add for %s"
        [LogArg.str job.Domain.VanityDomain]]
      match configureVanityDomain q job.ReferenceID job.Domain with
      | (some err, tc) => t ++ tc ++ ackornack q config msg referenceID true err
      | (none, tc) => done (t ++ tc)
    else if job.Type_ = "change" then
      let t := t ++ [Event.qPrintf "Processing Vanity Domain Change for %s"
        [LogArg.str job.Domain.VanityDomain]]
      match configureVanityDomain q job.ReferenceID job.Domain with
      | (some err, tc) => t ++ tc ++ ackornack q config msg referenceID true err
      | (none, tc) => done (t ++ tc)
    else if job.Type_ = "remove" then
      match domainRemove q job.ReferenceID job.Domain with
      | (some err, tc) => t ++ tc ++ ackornack q config msg referenceID true err
      | (none, tc) => done (t ++ tc)
    else
      done t

/-! ## Reading traces -/

/-- Whether an event is a call of a logger. -/
def Event.isLog : Event → Bool
  | .qPrintf _ _ => true
  | .qPrintln _ => true
  | .logPrintln _ => true
  | _ => false

/-- The calls of a trace other than logging, in order. -/
def effects (t : Trace) : Trace :=
  t.filter (fun e => !e.isLog)

/-- Whether an event is a call to the cluster API (secrets or ingresses). -/
def Event.isClusterCall : Event → Bool
  | .secretGet _ _ => true
  | .secretCreate _ _ => true
  | .secretUpdate _ _ => true
  | .secretDelete _ _ => true
  | .ingressGet _ _ => true
  | .ingressCreate _ _ => true
  | .ingressUpdate _ _ => true
  | .ingressDelete _ _ => true
  | _ => false

/-- The calls of a trace to the cluster API, in order. -/
def clusterCalls (t : Trace) : Trace :=
  t.filter Event.isClusterCall

/-- Whether an event is a call to the queue: a publish, an acknowledgement or a
negative acknowledgement. -/
def Event.isQueueCall : Event → Bool
  | .publish _ _ => true
  | .ack => true
  | .nakWithDelay _ => true
  | _ => false

/-- The calls of a trace to the queue, in order. -/
def queueCalls (t : Trace) : Trace :=
  t.filter Event.isQueueCall

/-- The status record sent by `SendStatusUpdate`. -/
def statusOf (referenceID : String) (success : Bool) (errorMessage : String)
    (dropped : Bool) : JobStatus :=
  { Success := success, ReferenceID := referenceID,
    ErrorMessage := errorMessage, Dropped := dropped }

/-! ## Sample environments -/

/-- An empty secret, as a typed client returns it next to an error. -/
def emptySecret : Secret :=
  { ObjectMeta := { Name := "", Namespace := "", Labels := [], Annotations := [],
                    ResourceVersion := "" },
    Type_ := "", Data := [] }

/-- An empty ingress, as a typed client returns it next to an error. -/
def emptyIngress : Ingress :=
  { ObjectMeta := { Name := "", Namespace := "", Labels := [], Annotations := [],
                    ResourceVersion := "" },
    Spec := { Rules := [], TLS := [] } }

/-- A domain of type CNAME with a provided certificate. -/
def sampleDomain : VanityDomain :=
  { VanityDomain := "shop.example.com"
    DesiredDNSTargetType := "CNAME"
    DesiredCNAMETarget := "target.example.com"
    DesiredARecordTargets := []
    ProvidedCertificate := some { Key := "KEY", Cert := "CERT" }
    TargetServiceName := ""
    TargetServicePort := 0 }

/-- An `add` job for `sampleDomain`. -/
def sampleJob : DomainJob :=
  { Type_ := "add", Domain := sampleDomain, ReferenceID := "ref-1" }

/-- A world in which every call succeeds: the name resolves to the desired target,
the certificate is valid, the cluster has neither secret nor ingress yet, the
broker accepts every publish, and the payload `"job"` decodes to `sampleJob`. -/
def sampleEnv : Env :=
  { lookupCNAME := fun _ => ("target.example.com.", none)
    lookupIP := fun _ => ([[192, 0, 2, 1]], none)
    ipString := fun ip => if ip = [192, 0, 2, 1] then "192.0.2.1" else "198.51.100.7"
    pemDecode := fun s => if s = "" then none else some [48]
    x509Parse := fun der => .ok { Raw := der, NotBefore := 0, NotAfter := 100 }
    now := fun _ => 50
    systemCertPool := .ok []
    certVerify := fun _ _ => none
    secretGet := fun _ _ => (emptySecret, some "secrets not found")
    secretCreate := fun _ _ => none
    secretUpdate := fun _ _ => none
    secretDelete := fun _ _ => none
    ingressGet := fun _ _ => (emptyIngress, some "ingresses not found")
    ingressCreate := fun _ _ => none
    ingressUpdate := fun _ _ => none
    ingressDelete := fun _ _ => none
    publish := fun _ _ => none
    unmarshalJob := fun data =>
      if data = "job" then .ok sampleJob else .error "invalid character" }

/-- A cluster client with default backend `web:80` in namespace `vanity`. -/
def sampleKube : KubeClient :=
  { Namespace := "vanity", CertManagerIssuer := "letsencrypt",
    ServiceName := "web", ServicePort := 80 }

/-- A queue manager over `sampleEnv` in environment `prod`. -/
def sampleQ : QueueManager :=
  { env := sampleEnv, kube := sampleKube, environment := "prod" }

/-- A first delivery of a payload that does not decode. -/
def malformedMsg : Msg :=
  { Subject := "prod.vanityDomainVerifier.domainjob.x", Data := "not json", NumDelivered := 1 }

/-- The world of `sampleEnv`, except that the name resolves to another target. -/
def mismatchEnv : Env :=
  { sampleEnv with lookupCNAME := fun _ => ("other.example.net.", none) }

/-- A queue manager over `mismatchEnv`. -/
def mismatchQ : QueueManager :=
  { env := mismatchEnv, kube := sampleKube, environment := "prod" }

/-- A first delivery of the payload of `sampleJob`. -/
def sampleMsg : Msg :=
  { Subject := "prod.vanityDomainVerifier.domainjob.ref-1", Data := "job", NumDelivered := 1 }

/-- The world of `sampleEnv`, except that the canonical name is the root `.`. -/
def rootCnameEnv : Env :=
  { sampleEnv with lookupCNAME := fun _ => (".", none) }

/-- The comparison the specification words for a CNAME: the canonical name with a
single trailing `.` stripped, if present, equals the desired target. -/
def specCNAMEMatches (cname target : String) : Bool :=
  (if cname.data.getLast? = some '.' then String.mk cname.data.dropLast else cname) == target

/-- A domain of type A with two desired addresses. -/
def sampleADomain : VanityDomain :=
  { VanityDomain := "shop.example.com"
    DesiredDNSTargetType := "A"
    DesiredCNAMETarget := ""
    DesiredARecordTargets := ["192.0.2.1", "192.0.2.2"]
    ProvidedCertificate := none
    TargetServiceName := ""
    TargetServicePort := 0 }

/-- A domain without certificate that names its own backend `custom-svc:8080`. -/
def overrideDomain : VanityDomain :=
  { VanityDomain := "shop.example.com"
    DesiredDNSTargetType := "CNAME"
    DesiredCNAMETarget := "target.example.com"
    DesiredARecordTargets := []
    ProvidedCertificate := none
    TargetServiceName := "custom-svc"
    TargetServicePort := 8080 }

/-- The world of `sampleEnv`, except that fetching a secret or an ingress fails with
an authorization error, next to which the client returns an empty object, and that
the update of an ingress without a name is refused, as the client refuses it. -/
def forbiddenEnv : Env :=
  { sampleEnv with
    secretGet := fun _ _ => (emptySecret, some "secrets is forbidden")
    ingressGet := fun _ _ => (emptyIngress, some "ingresses is forbidden")
    ingressUpdate := fun _ i =>
      if i.ObjectMeta.Name = "" then some "resource name may not be empty" else none }

/-- The world of `sampleEnv`, except that the broker refuses every publish. -/
def brokerDownEnv : Env :=
  { sampleEnv with publish := fun _ _ => some "nats: timeout" }

/-- A queue manager over `brokerDownEnv`. -/
def brokerDownQ : QueueManager :=
  { env := brokerDownEnv, kube := sampleKube, environment := "prod" }

/-- The tenth delivery of the payload of `sampleJob`. -/
def tenthMsg : Msg :=
  { Subject := "prod.vanityDomainVerifier.domainjob.ref-1", Data := "job", NumDelivered := 10 }

/-! ## Package `config` -/

structure NatsConfig where
  ConnectionString : String
  JWT : String
  Seed : String
deriving DecidableEq, Repr

structure RouterConfig where
  Port : Int
  Mode : String
deriving DecidableEq, Repr

structure SystemConfig where
  Environment : String
deriving DecidableEq, Repr

structure ClusterConfig where
  Namespace : String
  CertManagerIssuer : String
  ServiceName : String
  ServicePort : Int
deriving DecidableEq, Repr

/-- The Go type `config`. -/
structure config where
  NatsConfig : NatsConfig
  RouterConfig : RouterConfig
  SystemConfig : SystemConfig
  ClusterConfig : ClusterConfig
deriving DecidableEq, Repr

/-- `(*config).validate`. -/
def config.validate (c : config) : GoError :=
  if c.NatsConfig.ConnectionString = "" then
    some "invalid NATS host, it can not be empty"
  else if c.SystemConfig.Environment = "" then
    some "invalid system environment, it can not be empty"
  else if c.ClusterConfig.Namespace = "" then
    some "cluster namespace cannot be empty"
  else if c.ClusterConfig.ServiceName = "" then
    some "cluster serviceName cannot be empty"
  else if c.ClusterConfig.ServicePort ≤ 0 then
    some "cluster servicePort must be a positive number"
  else
    none

/-- What `config.Load` reads: `os.ReadFile`, and `yaml.Unmarshal` of the bytes into
a zero `config`. -/
structure ConfigFiles where
  readFile : String → Except String String
  yamlUnmarshal : String → Except String config

/-- How a call of `config.Load` ends. -/
inductive LoadOutcome where
  /-- the file could not be read: the error is logged and returned -/
  | readFailed (err : String)
  /-- the bytes are not a configuration: `log.Fatalf` ends the process -/
  | exited (err : String)
  /-- the parsed configuration is stored in `_config` and `validate` is returned -/
  | stored (c : config) (err : GoError)
deriving DecidableEq, Repr

/-- `config.Load`. -/
def Load (fs : ConfigFiles) (filePath : String) : LoadOutcome :=
  match fs.readFile filePath with
  | .error e => .readFailed e
  | .ok yamlFile =>
    match fs.yamlUnmarshal yamlFile with
    | .error e => .exited e
    | .ok c => .stored c c.validate

/-! ## Further sample values -/

/-- The configuration written by `TestClusterConfigValidation`. -/
def testInvalidConfig : config :=
  { NatsConfig := { ConnectionString := "nats://localhost:4222", JWT := "asdf", Seed := "asdf" }
    RouterConfig := { Port := 3887, Mode := "debug" }
    SystemConfig := { Environment := "development" }
    ClusterConfig := { Namespace := "", CertManagerIssuer := "", ServiceName := "",
                       ServicePort := 0 } }

/-- A configuration with every required field set and no issuer. -/
def testValidConfig : config :=
  { NatsConfig := { ConnectionString := "nats://localhost:4222", JWT := "asdf", Seed := "asdf" }
    RouterConfig := { Port := 3887, Mode := "debug" }
    SystemConfig := { Environment := "development" }
    ClusterConfig := { Namespace := "default", CertManagerIssuer := "",
                       ServiceName := "your-service", ServicePort := 3000 } }

/-- Two files: `invalid.yaml` holds `testInvalidConfig`, any other path holds
`testValidConfig`. -/
def sampleFiles : ConfigFiles :=
  { readFile := fun path => .ok path
    yamlUnmarshal := fun data =>
      if data = "invalid.yaml" then .ok testInvalidConfig else .ok testValidConfig }

/-- The world of `sampleEnv`, except that the secret and the ingress are already
gone: both deletes answer with a not-found error. -/
def absentEnv : Env :=
  { sampleEnv with
    secretDelete := fun _ _ => some "secrets shop-example-com-tls-cert not found"
    ingressDelete := fun _ _ => some "ingresses shop-example-com not found" }

/-- A queue manager over `absentEnv`. -/
def absentQ : QueueManager :=
  { env := absentEnv, kube := sampleKube, environment := "prod" }

/-- A queue manager over the world of `absentEnv` in which, moreover, the broker
refuses every publish. -/
def absentDownQ : QueueManager :=
  { env := { absentEnv with publish := fun _ _ => some "nats: timeout" },
    kube := sampleKube, environment := "prod" }

/-- A job whose type is none of `add`, `change` and `remove`. -/
def purgeJob : DomainJob :=
  { Type_ := "purge", Domain := sampleDomain, ReferenceID := "ref-9" }

/-- A queue manager whose payloads all decode to `purgeJob`. -/
def purgeQ : QueueManager :=
  { env := { sampleEnv with unmarshalJob := fun _ => .ok purgeJob },
    kube := sampleKube, environment := "prod" }

/-! ## Lemmas on traces -/

theorem effects_append (a b : Trace) : effects (a ++ b) = effects a ++ effects b := by
  simp [effects]

theorem effects_nil : effects [] = [] := rfl

theorem effects_cons (e : Event) (t : Trace) :
    effects (e :: t) = if e.isLog = true then effects t else e :: effects t := by
  cases h : e.isLog <;> simp [effects, List.filter_cons, h]

/-- The events of `SendStatusUpdate` other than logging: one publish. -/
theorem effects_SendStatusUpdate (q : QueueManager) (referenceID : String) (success : Bool)
    (errorMessage : String) (dropped : Bool) :
    effects (SendStatusUpdate q referenceID success errorMessage dropped).2 =
      [Event.publish (GetStatusSubject q referenceID)
        (statusOf referenceID success errorMessage dropped)] := by
  unfold SendStatusUpdate statusOf
  cases h : q.env.publish (GetStatusSubject q referenceID)
    { Success := success, ReferenceID := referenceID,
      ErrorMessage := errorMessage, Dropped := dropped } <;>
    simp [h, effects, Event.isLog]

/-- The events of the failure path of `ackornack` other than logging. -/
theorem effects_ackornack_error (q : QueueManager) (config : ConsumerConfig) (msg : Msg)
    (referenceID errorMessage : String) :
    effects (ackornack q config msg referenceID true errorMessage) =
      if msg.NumDelivered ≥ toUint64 config.MaxDeliver then
        [Event.publish (GetStatusSubject q referenceID)
          (statusOf referenceID false errorMessage true), Event.ack]
      else
        [Event.publish (GetStatusSubject q referenceID)
          (statusOf referenceID false errorMessage false),
         Event.nakWithDelay (nakDelay msg.NumDelivered)] := by
  unfold ackornack
  by_cases hc : msg.NumDelivered ≥ toUint64 config.MaxDeliver
  · simp only [hc, if_true, effects_append, effects_SendStatusUpdate]
    split <;> simp [effects, Event.isLog]
  · simp only [hc, if_true, if_false, effects_append, effects_SendStatusUpdate]
    split <;> simp [effects, Event.isLog]

theorem mem_effects (e : Event) (t : Trace) :
    e ∈ effects t ↔ e ∈ t ∧ e.isLog = false := by
  simp [effects]

theorem toUint64_ten : toUint64 10 = 10 := by decide

/-- The delay of `ackornack` for a delivery count between 1 and 9. -/
theorem nakDelay_small (n : Nat) (h1 : 1 ≤ n) (h2 : n < 10) :
    nakDelay n = 30 * timeSecond * 2 ^ (n - 1) := by
  interval_cases n <;> decide

/-! ## The delivery handler -/

/-- C1 (as the code has it): a payload that does not decode is handled as a failed
delivery with reference id `unknown` and an empty error text.  Below the maximum
delivery count a status with success=false, dropped=false is published and the
message is negatively acknowledged with the backoff delay; at the maximum the
status carries dropped=true and the message is acknowledged. -/
theorem domainJobHandler_parse_failure (q : QueueManager) (config : ConsumerConfig)
    (msg : Msg) (e : String) (h : q.env.unmarshalJob msg.Data = .error e) :
    effects (domainJobHandler q config msg) =
      if msg.NumDelivered ≥ toUint64 config.MaxDeliver then
        [Event.publish (GetStatusSubject q "unknown") (statusOf "unknown" false "" true),
         Event.ack]
      else
        [Event.publish (GetStatusSubject q "unknown") (statusOf "unknown" false "" false),
         Event.nakWithDelay (nakDelay msg.NumDelivered)] := by
  unfold domainJobHandler
  simp only [h, effects_append, effects_ackornack_error]
  simp [effects, Event.isLog]

theorem domainJobHandler_parse_failure_witness :
    sampleQ.env.unmarshalJob malformedMsg.Data = .error "invalid character" ∧
    effects (domainJobHandler sampleQ (workerConfig sampleQ) malformedMsg) =
      if malformedMsg.NumDelivered ≥ toUint64 (workerConfig sampleQ).MaxDeliver then
        [Event.publish (GetStatusSubject sampleQ "unknown") (statusOf "unknown" false "" true),
         Event.ack]
      else
        [Event.publish (GetStatusSubject sampleQ "unknown")
          (statusOf "unknown" false "" false),
         Event.nakWithDelay (nakDelay malformedMsg.NumDelivered)] :=
  ⟨rfl, domainJobHandler_parse_failure sampleQ (workerConfig sampleQ) malformedMsg
    "invalid character" rfl⟩

/-- C1 (counterexample): on a first delivery whose payload does not decode, the
handler publishes a failure status for reference id `unknown` and negatively
acknowledges the message with a delay of 30 seconds. -/
theorem domainJobHandler_parse_failure_not_silent :
    sampleQ.env.unmarshalJob malformedMsg.Data = .error "invalid character" ∧
    effects (domainJobHandler sampleQ (workerConfig sampleQ) malformedMsg) =
      [Event.publish "prod.vanityDomainVerifier.status.unknown"
        { Success := false, ReferenceID := "unknown", ErrorMessage := "", Dropped := false },
       Event.nakWithDelay 30000000000] :=
  ⟨rfl, by decide⟩

/-- C2: a failing delivery with delivery count `n`, `1 ≤ n < 10`, under
`MaxDeliver = 10`: `ackornack` publishes a status with success=false, dropped=false
and the error text, then negatively acknowledges with delay `30s * 2^(n-1)`; the
delays of attempts 1 to 4 are 30s, 60s, 120s and 240s. -/
theorem ackornack_retry_backoff (q : QueueManager) (config : ConsumerConfig) (msg : Msg)
    (referenceID errorMessage : String) (hmax : config.MaxDeliver = 10)
    (h1 : 1 ≤ msg.NumDelivered) (h2 : msg.NumDelivered < 10) :
    effects (ackornack q config msg referenceID true errorMessage) =
      [Event.publish (GetStatusSubject q referenceID)
        { Success := false, ReferenceID := referenceID,
          ErrorMessage := errorMessage, Dropped := false },
       Event.nakWithDelay (30 * timeSecond * 2 ^ (msg.NumDelivered - 1))] ∧
    nakDelay 1 = 30 * timeSecond ∧ nakDelay 2 = 60 * timeSecond ∧
    nakDelay 3 = 120 * timeSecond ∧ nakDelay 4 = 240 * timeSecond := by
  refine ⟨?_, by decide, by decide, by decide, by decide⟩
  rw [effects_ackornack_error, hmax, toUint64_ten, if_neg (by omega),
    nakDelay_small _ h1 h2]
  rfl

theorem ackornack_retry_backoff_witness :
    effects (ackornack sampleQ (workerConfig sampleQ)
        { Subject := "s", Data := "job", NumDelivered := 3 } "ref-1" true "boom") =
      [Event.publish (GetStatusSubject sampleQ "ref-1")
        { Success := false, ReferenceID := "ref-1", ErrorMessage := "boom", Dropped := false },
       Event.nakWithDelay (30 * timeSecond * 2 ^ (3 - 1))] ∧
    nakDelay 1 = 30 * timeSecond ∧ nakDelay 2 = 60 * timeSecond ∧
    nakDelay 3 = 120 * timeSecond ∧ nakDelay 4 = 240 * timeSecond :=
  ackornack_retry_backoff sampleQ (workerConfig sampleQ)
    { Subject := "s", Data := "job", NumDelivered := 3 } "ref-1" "boom" rfl
    (by decide) (by decide)

/-- C3: a failing delivery whose delivery count has reached `MaxDeliver = 10`:
`ackornack` publishes a status with dropped=true, success=false and the error
text, then acknowledges the message; `NakWithDelay` is not called. -/
theorem ackornack_dropped (q : QueueManager) (config : ConsumerConfig) (msg : Msg)
    (referenceID errorMessage : String) (hmax : config.MaxDeliver = 10)
    (h : 10 ≤ msg.NumDelivered) :
    effects (ackornack q config msg referenceID true errorMessage) =
      [Event.publish (GetStatusSubject q referenceID)
        { Success := false, ReferenceID := referenceID,
          ErrorMessage := errorMessage, Dropped := true },
       Event.ack] ∧
    ∀ d, Event.nakWithDelay d ∉ ackornack q config msg referenceID true errorMessage := by
  have he : effects (ackornack q config msg referenceID true errorMessage) =
      [Event.publish (GetStatusSubject q referenceID)
        (statusOf referenceID false errorMessage true), Event.ack] := by
    rw [effects_ackornack_error, hmax, toUint64_ten, if_pos h]
  refine ⟨he, ?_⟩
  intro d hd
  have hm : Event.nakWithDelay d ∈ effects (ackornack q config msg referenceID true errorMessage) :=
    (mem_effects _ _).2 ⟨hd, rfl⟩
  rw [he] at hm
  simp at hm

theorem ackornack_dropped_witness :
    effects (ackornack sampleQ (workerConfig sampleQ)
        { Subject := "s", Data := "job", NumDelivered := 10 } "ref-1" true "boom") =
      [Event.publish (GetStatusSubject sampleQ "ref-1")
        { Success := false, ReferenceID := "ref-1", ErrorMessage := "boom", Dropped := true },
       Event.ack] ∧
    ∀ d, Event.nakWithDelay d ∉ ackornack sampleQ (workerConfig sampleQ)
        { Subject := "s", Data := "job", NumDelivered := 10 } "ref-1" true "boom" :=
  ackornack_dropped sampleQ (workerConfig sampleQ)
    { Subject := "s", Data := "job", NumDelivered := 10 } "ref-1" "boom" rfl (by decide)

/-! ## Verification failures stop the reconciliation -/

theorem clusterCalls_append (a b : Trace) :
    clusterCalls (a ++ b) = clusterCalls a ++ clusterCalls b := by
  simp [clusterCalls]

theorem VerifyDomain_trace (env : Env) (domain : VanityDomain) :
    (VerifyDomain env domain).2 =
      if domain.DesiredDNSTargetType = "CNAME" then [Event.lookupCNAME domain.VanityDomain]
      else if domain.DesiredDNSTargetType = "A" then [Event.lookupIP domain.VanityDomain]
      else [] := by
  unfold VerifyDomain
  dsimp only
  split_ifs <;> rfl

theorem VerifyDomain_no_cluster_call (env : Env) (domain : VanityDomain) :
    clusterCalls (VerifyDomain env domain).2 = [] := by
  rw [VerifyDomain_trace]
  split_ifs <;> rfl

theorem ValidateTLSCert_no_cluster_call (env : Env) (domain : VanityDomain)
    (pc : DomainCustomCert) :
    clusterCalls (ValidateTLSCert env domain pc).2 = [] := by
  unfold ValidateTLSCert
  dsimp only
  repeat' split
  all_goals rfl

/-- When the DNS verification fails, or a certificate is supplied and its
validation fails, `configureVanityDomain` returns an error and its trace holds no
call to the cluster. -/
theorem configureVanityDomain_stops (q : QueueManager) (referenceID : String)
    (domain : VanityDomain)
    (hfail : (VerifyDomain q.env domain).1 ≠ none ∨
      ∃ pc, domain.ProvidedCertificate = some pc ∧
        (ValidateTLSCert q.env domain pc).1 ≠ none) :
    (∃ err, (configureVanityDomain q referenceID domain).1 = some err) ∧
    clusterCalls (configureVanityDomain q referenceID domain).2 = [] := by
  unfold configureVanityDomain
  dsimp only
  split_ifs with hshape
  · exact ⟨⟨_, rfl⟩, rfl⟩
  · have hv := VerifyDomain_no_cluster_call q.env domain
    rcases hvd : VerifyDomain q.env domain with ⟨_ | verr, tv⟩
    · rw [hvd] at hv hfail
      rcases hfail with hf | ⟨pc, hpc, hf⟩
      · exact absurd rfl hf
      · have hc := ValidateTLSCert_no_cluster_call q.env domain pc
        rcases hcd : ValidateTLSCert q.env domain pc with ⟨_ | cerr, tc⟩
        · rw [hcd] at hf; exact absurd rfl hf
        · rw [hcd] at hc
          simp only [hpc, hcd]
          refine ⟨⟨_, rfl⟩, ?_⟩
          simp only [clusterCalls_append, hv, hc]
          rfl
    · rw [hvd] at hv
      dsimp only
      refine ⟨⟨_, rfl⟩, ?_⟩
      simp only [clusterCalls_append, hv]
      rfl

theorem domainJobHandler_configure_error (q : QueueManager) (config : ConsumerConfig)
    (msg : Msg) (job : DomainJob) (err : String)
    (hparse : q.env.unmarshalJob msg.Data = .ok job)
    (htype : job.Type_ = "add" ∨ job.Type_ = "change")
    (herr : (configureVanityDomain q job.ReferenceID job.Domain).1 = some err) :
    effects (domainJobHandler q config msg) =
      effects (configureVanityDomain q job.ReferenceID job.Domain).2 ++
        effects (ackornack q config msg job.ReferenceID true err) := by
  unfold domainJobHandler
  simp only [hparse]
  rcases hc : configureVanityDomain q job.ReferenceID job.Domain with ⟨r, tc⟩
  rw [hc] at herr
  simp only at herr
  subst herr
  rcases htype with ht | ht
  · simp [ht, effects_append, effects_cons, Event.isLog, effects_nil]
  · simp [ht, effects_append, effects_cons, Event.isLog, effects_nil]


/-- C4: an `add` or `change` job whose DNS verification fails, or whose supplied
certificate fails validation: `configureVanityDomain` makes no call to the cluster
(neither `SetTLS` nor `SetVanityDomain` runs) and returns an error, and the handler
ends the delivery by publishing a status with success=false for the job's reference
id, followed by the acknowledgement or negative acknowledgement of `ackornack`. -/
theorem verification_failure_no_reconcile (q : QueueManager) (config : ConsumerConfig)
    (msg : Msg) (job : DomainJob)
    (hparse : q.env.unmarshalJob msg.Data = .ok job)
    (htype : job.Type_ = "add" ∨ job.Type_ = "change")
    (hfail : (VerifyDomain q.env job.Domain).1 ≠ none ∨
      ∃ pc, job.Domain.ProvidedCertificate = some pc ∧
        (ValidateTLSCert q.env job.Domain pc).1 ≠ none) :
    clusterCalls (configureVanityDomain q job.ReferenceID job.Domain).2 = [] ∧
    ∃ errorMessage,
      (configureVanityDomain q job.ReferenceID job.Domain).1 = some errorMessage ∧
      effects (domainJobHandler q config msg) =
        effects (configureVanityDomain q job.ReferenceID job.Domain).2 ++
          if msg.NumDelivered ≥ toUint64 config.MaxDeliver then
            [Event.publish (GetStatusSubject q job.ReferenceID)
              { Success := false, ReferenceID := job.ReferenceID,
                ErrorMessage := errorMessage, Dropped := true },
             Event.ack]
          else
            [Event.publish (GetStatusSubject q job.ReferenceID)
              { Success := false, ReferenceID := job.ReferenceID,
                ErrorMessage := errorMessage, Dropped := false },
             Event.nakWithDelay (nakDelay msg.NumDelivered)] := by
  obtain ⟨⟨err, herr⟩, hcl⟩ := configureVanityDomain_stops q job.ReferenceID job.Domain hfail
  refine ⟨hcl, err, herr, ?_⟩
  rw [domainJobHandler_configure_error q config msg job err hparse htype herr,
    effects_ackornack_error]
  rfl

theorem verification_failure_no_reconcile_witness :
    (VerifyDomain mismatchQ.env sampleJob.Domain).1 ≠ none ∧
    clusterCalls (configureVanityDomain mismatchQ sampleJob.ReferenceID sampleJob.Domain).2
      = [] ∧
    ∃ errorMessage,
      (configureVanityDomain mismatchQ sampleJob.ReferenceID sampleJob.Domain).1
        = some errorMessage ∧
      effects (domainJobHandler mismatchQ (workerConfig mismatchQ) sampleMsg) =
        effects (configureVanityDomain mismatchQ sampleJob.ReferenceID sampleJob.Domain).2 ++
          if sampleMsg.NumDelivered ≥ toUint64 (workerConfig mismatchQ).MaxDeliver then
            [Event.publish (GetStatusSubject mismatchQ sampleJob.ReferenceID)
              { Success := false, ReferenceID := sampleJob.ReferenceID,
                ErrorMessage := errorMessage, Dropped := true },
             Event.ack]
          else
            [Event.publish (GetStatusSubject mismatchQ sampleJob.ReferenceID)
              { Success := false, ReferenceID := sampleJob.ReferenceID,
                ErrorMessage := errorMessage, Dropped := false },
             Event.nakWithDelay (nakDelay sampleMsg.NumDelivered)] :=
  ⟨by decide,
   verification_failure_no_reconcile mismatchQ (workerConfig mismatchQ) sampleMsg sampleJob
     rfl (Or.inl rfl) (Or.inl (by decide))⟩

/-! ## DNS verification -/

/-- What `VerifyDomain` decides for a CNAME domain once the resolver has returned a
non-empty canonical name without error: success exactly when the name has a single
character or the name without its last character is the desired target. -/
theorem VerifyDomain_cname_iff (env : Env) (domain : VanityDomain) (cname : String)
    (hC : domain.DesiredDNSTargetType = "CNAME")
    (hl : env.lookupCNAME domain.VanityDomain = (cname, none)) (hne : cname ≠ "") :
    (VerifyDomain env domain).1 = none ↔
      (cname.length ≤ 1 ∨ dropLastByte cname = domain.DesiredCNAMETarget) := by
  unfold VerifyDomain
  simp only [hC, if_true, hl]
  have h0 : ¬ ((none : GoError) ≠ none ∨ cname = "") := by simp [hne]
  rw [if_neg h0]
  by_cases h1 : cname.length > 1 ∧ dropLastByte cname ≠ domain.DesiredCNAMETarget
  · rw [if_pos h1]
    simp only [reduceCtorEq, false_iff, not_or, not_le]
    exact ⟨h1.1, h1.2⟩
  · rw [if_neg h1]
    simp only [true_iff]
    by_cases h2 : cname.length ≤ 1
    · exact Or.inl h2
    · right
      by_contra h3
      exact h1 ⟨by omega, h3⟩

/-- The example of the specification: the canonical name `target.example.com.`
verifies against the desired target `target.example.com`. -/
theorem VerifyDomain_cname_example :
    sampleEnv.lookupCNAME sampleDomain.VanityDomain = ("target.example.com.", none) ∧
    (VerifyDomain sampleEnv sampleDomain).1 = none := by
  decide

/-- C5 (failing input): the resolver returns the root name `.` for a CNAME domain
whose desired target is `target.example.com`.  The name with its trailing `.`
stripped is empty and differs from the target, yet `VerifyDomain` returns no error:
the comparison is skipped for a canonical name of a single character. -/
theorem VerifyDomain_cname_root_accepted :
    rootCnameEnv.lookupCNAME sampleDomain.VanityDomain = (".", none) ∧
    sampleDomain.DesiredDNSTargetType = "CNAME" ∧
    sampleDomain.DesiredCNAMETarget = "target.example.com" ∧
    specCNAMEMatches "." sampleDomain.DesiredCNAMETarget = false ∧
    (VerifyDomain rootCnameEnv sampleDomain).1 = none := by
  decide

theorem checkIPs_eq_none_iff (env : Env) (targets : List String) (ips : List IP) :
    checkIPs env targets ips = none ↔ ∀ ip ∈ ips, env.ipString ip ∈ targets := by
  induction ips with
  | nil => simp [checkIPs]
  | cons ip rest ih =>
    unfold checkIPs
    by_cases h : env.ipString ip ∈ targets
    · simp [h, ih]
    · simp [h]

/-- C6: for a domain of type A, `VerifyDomain` succeeds exactly when the lookup
returns no error, the result is not empty and the string form of every resolved
address is among `DesiredARecordTargets`; so it fails when the lookup errors, when
the result is empty, and when any one address is absent from the desired set,
whatever the other addresses are. -/
theorem VerifyDomain_A_iff (env : Env) (domain : VanityDomain)
    (hA : domain.DesiredDNSTargetType = "A") :
    ((VerifyDomain env domain).1 = none ↔
      ((env.lookupIP domain.VanityDomain).2 = none ∧
        (env.lookupIP domain.VanityDomain).1 ≠ [] ∧
        ∀ ip ∈ (env.lookupIP domain.VanityDomain).1,
          env.ipString ip ∈ domain.DesiredARecordTargets)) ∧
    ((∃ ip ∈ (env.lookupIP domain.VanityDomain).1,
        env.ipString ip ∉ domain.DesiredARecordTargets) →
      (VerifyDomain env domain).1 ≠ none) := by
  have hiff : (VerifyDomain env domain).1 = none ↔
      ((env.lookupIP domain.VanityDomain).2 = none ∧
        (env.lookupIP domain.VanityDomain).1 ≠ [] ∧
        ∀ ip ∈ (env.lookupIP domain.VanityDomain).1,
          env.ipString ip ∈ domain.DesiredARecordTargets) := by
    unfold VerifyDomain
    have hne : ¬ domain.DesiredDNSTargetType = "CNAME" := by rw [hA]; decide
    dsimp only
    rw [if_neg hne, if_pos hA]
    by_cases h : (env.lookupIP domain.VanityDomain).2 ≠ none ∨
        (env.lookupIP domain.VanityDomain).1.length = 0
    · rw [if_pos h]
      refine ⟨fun hcontra => by simp at hcontra, ?_⟩
      rintro ⟨h2, h3, -⟩
      rcases h with h | h
      · exact absurd h2 h
      · exact absurd (List.length_eq_zero.mp h) h3
    · rw [if_neg h]
      simp only [not_or, not_not] at h
      rw [checkIPs_eq_none_iff]
      constructor
      · intro hall
        exact ⟨h.1, fun h0 => h.2 (by simp [h0]), hall⟩
      · exact fun hh => hh.2.2
  refine ⟨hiff, ?_⟩
  rintro ⟨ip, hip, hnot⟩ hnone
  exact hnot ((hiff.mp hnone).2.2 ip hip)

theorem VerifyDomain_A_iff_witness :
    sampleADomain.DesiredDNSTargetType = "A" ∧
    ((VerifyDomain sampleEnv sampleADomain).1 = none ↔
      ((sampleEnv.lookupIP sampleADomain.VanityDomain).2 = none ∧
        (sampleEnv.lookupIP sampleADomain.VanityDomain).1 ≠ [] ∧
        ∀ ip ∈ (sampleEnv.lookupIP sampleADomain.VanityDomain).1,
          sampleEnv.ipString ip ∈ sampleADomain.DesiredARecordTargets)) ∧
    ((∃ ip ∈ (sampleEnv.lookupIP sampleADomain.VanityDomain).1,
        sampleEnv.ipString ip ∉ sampleADomain.DesiredARecordTargets) →
      (VerifyDomain sampleEnv sampleADomain).1 ≠ none) :=
  ⟨rfl, VerifyDomain_A_iff sampleEnv sampleADomain rfl⟩

/-! ## The routing rule -/

/-- The backend of the rule built by `SetVanityDomain` is that of the client. -/
theorem vanityIngress_backend (c : KubeClient) (job : VanityDomain) :
    (vanityIngress c job).Spec.Rules.map (fun r => r.Paths.map (fun p => p.Backend)) =
      [[{ Name := c.ServiceName, PortNumber := c.ServicePort }]] := rfl

/-- C7 (failing input): a domain that supplies `TargetServiceName = custom-svc` and
`TargetServicePort = 8080`, on a cluster whose default backend is `web:80`: the
ingress that `SetVanityDomain` creates routes to `web:80`. -/
theorem SetVanityDomain_ignores_target_service :
    overrideDomain.TargetServiceName = "custom-svc" ∧
    overrideDomain.TargetServicePort = 8080 ∧
    (SetVanityDomain sampleEnv sampleKube overrideDomain).2 =
      [Event.ingressGet "vanity" "shop-example-com",
       Event.logPrintln [LogArg.err (some "ingresses not found")],
       Event.ingressCreate "vanity" (vanityIngress sampleKube overrideDomain)] ∧
    (vanityIngress sampleKube overrideDomain).Spec.Rules =
      [{ Host := "shop.example.com",
         Paths := [{ PathType := "ImplementationSpecific",
                     Backend := { Name := "web", PortNumber := 80 } }] }] := by
  decide

/-! ## Fetch errors of the read-then-write operations -/

/-- The value `SetVanityDomain` sends on its update path: the fetched object with
annotations, labels and spec overwritten. -/
theorem SetVanityDomain_update_trace (env : Env) (c : KubeClient) (job : VanityDomain)
    (h : ¬ ((env.ingressGet c.Namespace (safeDomainName job.VanityDomain)).2 ≠ none ∧
      stringsContains (fmtErr (env.ingressGet c.Namespace (safeDomainName job.VanityDomain)).2)
        "not found" = true)) :
    SetVanityDomain env c job =
      (env.ingressUpdate c.Namespace
          { ObjectMeta :=
              { (env.ingressGet c.Namespace (safeDomainName job.VanityDomain)).1.ObjectMeta with
                Annotations := (vanityIngress c job).ObjectMeta.Annotations
                Labels := (vanityIngress c job).ObjectMeta.Labels }
            Spec := (vanityIngress c job).Spec },
        [Event.ingressGet c.Namespace (safeDomainName job.VanityDomain)] ++
          (if (env.ingressGet c.Namespace (safeDomainName job.VanityDomain)).2 ≠ none then
            [Event.logPrintln
              [LogArg.err (env.ingressGet c.Namespace (safeDomainName job.VanityDomain)).2]]
           else []) ++
          [Event.ingressUpdate c.Namespace
            { ObjectMeta :=
                { (env.ingressGet c.Namespace (safeDomainName job.VanityDomain)).1.ObjectMeta with
                  Annotations := (vanityIngress c job).ObjectMeta.Annotations
                  Labels := (vanityIngress c job).ObjectMeta.Labels }
              Spec := (vanityIngress c job).Spec }]) := by
  unfold SetVanityDomain
  dsimp only
  have hn : (vanityIngress c job).ObjectMeta.Name = safeDomainName job.VanityDomain := rfl
  rw [hn, if_neg h]
  split <;> simp_all

theorem SetTLS_update_trace (env : Env) (c : KubeClient) (job : VanityDomain)
    (pc : DomainCustomCert)
    (h : ¬ ((env.secretGet c.Namespace (safeDomainName job.VanityDomain ++ "-tls-cert")).2 ≠ none ∧
      stringsContains
        (fmtErr (env.secretGet c.Namespace (safeDomainName job.VanityDomain ++ "-tls-cert")).2)
        "not found" = true)) :
    SetTLS env c job pc =
      (env.secretUpdate c.Namespace (tlsSecret c job pc),
        [Event.secretGet c.Namespace (safeDomainName job.VanityDomain ++ "-tls-cert")] ++
          (if (env.secretGet c.Namespace (safeDomainName job.VanityDomain ++ "-tls-cert")).2 ≠ none
           then [Event.logPrintln [LogArg.err
              (env.secretGet c.Namespace (safeDomainName job.VanityDomain ++ "-tls-cert")).2]]
           else []) ++
          [Event.secretUpdate c.Namespace (tlsSecret c job pc)]) := by
  unfold SetTLS
  dsimp only
  rw [if_neg h]
  split <;> simp_all

theorem SetTLS_create_trace (env : Env) (c : KubeClient) (job : VanityDomain)
    (pc : DomainCustomCert)
    (h : (env.secretGet c.Namespace (safeDomainName job.VanityDomain ++ "-tls-cert")).2 ≠ none ∧
      stringsContains
        (fmtErr (env.secretGet c.Namespace (safeDomainName job.VanityDomain ++ "-tls-cert")).2)
        "not found" = true) :
    (SetTLS env c job pc).2 =
      [Event.secretGet c.Namespace (safeDomainName job.VanityDomain ++ "-tls-cert"),
       Event.logPrintln [LogArg.err
          (env.secretGet c.Namespace (safeDomainName job.VanityDomain ++ "-tls-cert")).2],
       Event.secretCreate c.Namespace (tlsSecret c job pc)] := by
  unfold SetTLS
  dsimp only
  rw [if_pos h, if_pos h.1]
  split <;> rfl

theorem SetVanityDomain_create_trace (env : Env) (c : KubeClient) (job : VanityDomain)
    (h : (env.ingressGet c.Namespace (safeDomainName job.VanityDomain)).2 ≠ none ∧
      stringsContains (fmtErr (env.ingressGet c.Namespace (safeDomainName job.VanityDomain)).2)
        "not found" = true) :
    (SetVanityDomain env c job).2 =
      [Event.ingressGet c.Namespace (safeDomainName job.VanityDomain),
       Event.logPrintln [LogArg.err
          (env.ingressGet c.Namespace (safeDomainName job.VanityDomain)).2],
       Event.ingressCreate c.Namespace (vanityIngress c job)] := by
  unfold SetVanityDomain
  dsimp only
  have hn : (vanityIngress c job).ObjectMeta.Name = safeDomainName job.VanityDomain := rfl
  rw [hn, if_pos h, if_pos h.1]
  split <;> rfl

/-- C8 (as the code has it): when the fetch of the existing secret or ingress fails
with an error whose text does not contain `not found`, `SetTLS` and
`SetVanityDomain` log the fetch error, do not create, send the update and return
what the update returns: `SetTLS` updates with the secret it has built,
`SetVanityDomain` with the object the failed fetch returned, its annotations,
labels and spec overwritten.  A create is in the trace exactly when the fetch
failed with an error whose text contains `not found`. -/
theorem set_fetch_error_takes_update_path (env : Env) (c : KubeClient) (job : VanityDomain)
    (pc : DomainCustomCert) :
    (∀ e, (env.secretGet c.Namespace (safeDomainName job.VanityDomain ++ "-tls-cert")).2
          = some e →
        stringsContains e "not found" = false →
        SetTLS env c job pc =
          (env.secretUpdate c.Namespace (tlsSecret c job pc),
            [Event.secretGet c.Namespace (safeDomainName job.VanityDomain ++ "-tls-cert"),
             Event.logPrintln [LogArg.err (some e)],
             Event.secretUpdate c.Namespace (tlsSecret c job pc)])) ∧
    (∀ e, (env.ingressGet c.Namespace (safeDomainName job.VanityDomain)).2 = some e →
        stringsContains e "not found" = false →
        SetVanityDomain env c job =
          (env.ingressUpdate c.Namespace
              { ObjectMeta :=
                  { (env.ingressGet c.Namespace (safeDomainName job.VanityDomain)).1.ObjectMeta
                    with
                    Annotations := (vanityIngress c job).ObjectMeta.Annotations
                    Labels := (vanityIngress c job).ObjectMeta.Labels }
                Spec := (vanityIngress c job).Spec },
            [Event.ingressGet c.Namespace (safeDomainName job.VanityDomain),
             Event.logPrintln [LogArg.err (some e)],
             Event.ingressUpdate c.Namespace
              { ObjectMeta :=
                  { (env.ingressGet c.Namespace (safeDomainName job.VanityDomain)).1.ObjectMeta
                    with
                    Annotations := (vanityIngress c job).ObjectMeta.Annotations
                    Labels := (vanityIngress c job).ObjectMeta.Labels }
                Spec := (vanityIngress c job).Spec }])) ∧
    ((∃ ns s, Event.secretCreate ns s ∈ (SetTLS env c job pc).2) ↔
      ∃ e, (env.secretGet c.Namespace (safeDomainName job.VanityDomain ++ "-tls-cert")).2
          = some e ∧ stringsContains e "not found" = true) ∧
    ((∃ ns i, Event.ingressCreate ns i ∈ (SetVanityDomain env c job).2) ↔
      ∃ e, (env.ingressGet c.Namespace (safeDomainName job.VanityDomain)).2 = some e ∧
        stringsContains e "not found" = true) := by
  refine ⟨?_, ?_, ?_, ?_⟩
  · intro e he hnf
    have h : ¬ ((env.secretGet c.Namespace (safeDomainName job.VanityDomain ++ "-tls-cert")).2
          ≠ none ∧
        stringsContains
          (fmtErr (env.secretGet c.Namespace (safeDomainName job.VanityDomain ++ "-tls-cert")).2)
          "not found" = true) := by
      rw [he]; simp [fmtErr, hnf]
    rw [SetTLS_update_trace env c job pc h, he]
    rfl
  · intro e he hnf
    have h : ¬ ((env.ingressGet c.Namespace (safeDomainName job.VanityDomain)).2 ≠ none ∧
        stringsContains
          (fmtErr (env.ingressGet c.Namespace (safeDomainName job.VanityDomain)).2)
          "not found" = true) := by
      rw [he]; simp [fmtErr, hnf]
    rw [SetVanityDomain_update_trace env c job h, he]
    rfl
  · by_cases h : (env.secretGet c.Namespace (safeDomainName job.VanityDomain ++ "-tls-cert")).2
          ≠ none ∧
        stringsContains
          (fmtErr (env.secretGet c.Namespace (safeDomainName job.VanityDomain ++ "-tls-cert")).2)
          "not found" = true
    · rw [SetTLS_create_trace env c job pc h]
      constructor
      · intro _
        rcases hg : (env.secretGet c.Namespace
          (safeDomainName job.VanityDomain ++ "-tls-cert")).2 with _ | e
        · exact absurd hg h.1
        · refine ⟨e, rfl, ?_⟩
          have h2 := h.2
          rw [hg] at h2
          exact h2
      · intro _
        exact ⟨c.Namespace, tlsSecret c job pc, by simp⟩
    · rw [SetTLS_update_trace env c job pc h]
      constructor
      · rintro ⟨ns, s, hm⟩
        dsimp only at hm
        split_ifs at hm <;> simp at hm
      · rintro ⟨e, he, hc⟩
        exfalso
        apply h
        rw [he]
        exact ⟨by simp, hc⟩
  · by_cases h : (env.ingressGet c.Namespace (safeDomainName job.VanityDomain)).2 ≠ none ∧
        stringsContains
          (fmtErr (env.ingressGet c.Namespace (safeDomainName job.VanityDomain)).2)
          "not found" = true
    · rw [SetVanityDomain_create_trace env c job h]
      constructor
      · intro _
        rcases hg : (env.ingressGet c.Namespace (safeDomainName job.VanityDomain)).2 with _ | e
        · exact absurd hg h.1
        · refine ⟨e, rfl, ?_⟩
          have h2 := h.2
          rw [hg] at h2
          exact h2
      · intro _
        exact ⟨c.Namespace, vanityIngress c job, by simp⟩
    · rw [SetVanityDomain_update_trace env c job h]
      constructor
      · rintro ⟨ns, s, hm⟩
        dsimp only at hm
        split_ifs at hm <;> simp at hm
      · rintro ⟨e, he, hc⟩
        exfalso
        apply h
        rw [he]
        exact ⟨by simp, hc⟩

theorem set_fetch_error_takes_update_path_witness :
    (forbiddenEnv.secretGet sampleKube.Namespace
        (safeDomainName sampleDomain.VanityDomain ++ "-tls-cert")).2
      = some "secrets is forbidden" ∧
    stringsContains "secrets is forbidden" "not found" = false ∧
    SetTLS forbiddenEnv sampleKube sampleDomain { Key := "KEY", Cert := "CERT" } =
      (forbiddenEnv.secretUpdate sampleKube.Namespace
          (tlsSecret sampleKube sampleDomain { Key := "KEY", Cert := "CERT" }),
        [Event.secretGet sampleKube.Namespace
          (safeDomainName sampleDomain.VanityDomain ++ "-tls-cert"),
         Event.logPrintln [LogArg.err (some "secrets is forbidden")],
         Event.secretUpdate sampleKube.Namespace
          (tlsSecret sampleKube sampleDomain { Key := "KEY", Cert := "CERT" })]) :=
  ⟨rfl, by decide,
   (set_fetch_error_takes_update_path forbiddenEnv sampleKube sampleDomain
      { Key := "KEY", Cert := "CERT" }).1 "secrets is forbidden" rfl (by decide)⟩

/-- C8 (counterexample): the fetch of the secret, and of the ingress, fails with an
authorization error.  `SetTLS` goes on to update the secret it has built, the
update succeeds and `SetTLS` returns no error.  `SetVanityDomain` goes on to update
the object it has fetched, which has no name, and returns the refusal of that
update.  In neither case does the fetch error reach the caller. -/
theorem set_fetch_error_not_returned :
    (forbiddenEnv.secretGet "vanity" "shop-example-com-tls-cert").2
      = some "secrets is forbidden" ∧
    stringsContains "secrets is forbidden" "not found" = false ∧
    SetTLS forbiddenEnv sampleKube sampleDomain { Key := "KEY", Cert := "CERT" } =
      (none,
        [Event.secretGet "vanity" "shop-example-com-tls-cert",
         Event.logPrintln [LogArg.err (some "secrets is forbidden")],
         Event.secretUpdate "vanity"
          (tlsSecret sampleKube sampleDomain { Key := "KEY", Cert := "CERT" })]) ∧
    forbiddenEnv.ingressGet "vanity" "shop-example-com"
      = (emptyIngress, some "ingresses is forbidden") ∧
    stringsContains "ingresses is forbidden" "not found" = false ∧
    SetVanityDomain forbiddenEnv sampleKube sampleDomain =
      (some "resource name may not be empty",
        [Event.ingressGet "vanity" "shop-example-com",
         Event.logPrintln [LogArg.err (some "ingresses is forbidden")],
         Event.ingressUpdate "vanity"
          { ObjectMeta := { Name := "", Namespace := "", Labels := [], Annotations := [],
                            ResourceVersion := "" },
            Spec := (vanityIngress sampleKube sampleDomain).Spec }]) := by
  decide

/-! ## Failing status publishes -/

theorem queueCalls_append (a b : Trace) :
    queueCalls (a ++ b) = queueCalls a ++ queueCalls b := by
  simp [queueCalls]

theorem VerifyDomain_no_queue_call (env : Env) (domain : VanityDomain) :
    queueCalls (VerifyDomain env domain).2 = [] := by
  rw [VerifyDomain_trace]
  split_ifs <;> rfl

theorem ValidateTLSCert_no_queue_call (env : Env) (domain : VanityDomain)
    (pc : DomainCustomCert) :
    queueCalls (ValidateTLSCert env domain pc).2 = [] := by
  unfold ValidateTLSCert
  dsimp only
  repeat' split
  all_goals rfl

theorem SetTLS_no_queue_call (env : Env) (c : KubeClient) (job : VanityDomain)
    (pc : DomainCustomCert) :
    queueCalls (SetTLS env c job pc).2 = [] := by
  unfold SetTLS
  dsimp only
  repeat' split
  all_goals rfl

theorem SetVanityDomain_no_queue_call (env : Env) (c : KubeClient) (job : VanityDomain) :
    queueCalls (SetVanityDomain env c job).2 = [] := by
  unfold SetVanityDomain
  dsimp only
  repeat' split
  all_goals rfl

theorem SendStatusUpdate_queue_calls (q : QueueManager) (referenceID : String) (success : Bool)
    (errorMessage : String) (dropped : Bool) :
    queueCalls (SendStatusUpdate q referenceID success errorMessage dropped).2 =
      [Event.publish (GetStatusSubject q referenceID)
        (statusOf referenceID success errorMessage dropped)] := by
  unfold SendStatusUpdate
  dsimp only
  split <;> rfl

theorem SendStatusUpdate_result (q : QueueManager) (referenceID : String) (success : Bool)
    (errorMessage : String) (dropped : Bool) :
    (SendStatusUpdate q referenceID success errorMessage dropped).1 =
      (q.env.publish (GetStatusSubject q referenceID)
        (statusOf referenceID success errorMessage dropped)).map
        (fun e => "publish status update to " ++ GetStatusSubject q referenceID ++ ": " ++ e) := by
  unfold SendStatusUpdate statusOf
  dsimp only
  split <;> simp_all

/-- The queue calls of `configureVanityDomain`: none when it stops early with an
error, otherwise the single publish of the success status, whose failure is the
error returned. -/
theorem configureVanityDomain_publish (q : QueueManager) (referenceID : String)
    (domain : VanityDomain) :
    (queueCalls (configureVanityDomain q referenceID domain).2 = [] ∧
      (configureVanityDomain q referenceID domain).1 ≠ none) ∨
    (queueCalls (configureVanityDomain q referenceID domain).2 =
        [Event.publish (GetStatusSubject q referenceID) (statusOf referenceID true "" false)] ∧
      (configureVanityDomain q referenceID domain).1 =
        (q.env.publish (GetStatusSubject q referenceID)
          (statusOf referenceID true "" false)).map
          (fun e => "failed to send status update for " ++ domain.VanityDomain ++ ": " ++
            ("publish status update to " ++ GetStatusSubject q referenceID ++ ": " ++ e))) := by
  have hv := VerifyDomain_no_queue_call q.env domain
  have hsv := SetVanityDomain_no_queue_call q.env q.kube domain
  have hs := SendStatusUpdate_queue_calls q referenceID true "" false
  have hr := SendStatusUpdate_result q referenceID true "" false
  unfold configureVanityDomain
  dsimp only
  split_ifs with hshape
  · left; exact ⟨rfl, by simp⟩
  · rcases hvd : VerifyDomain q.env domain with ⟨_ | verr, tv⟩
    · rw [hvd] at hv
      dsimp only at hv ⊢
      rcases hpc : domain.ProvidedCertificate with _ | pc
      · dsimp only
        rcases hsvd : SetVanityDomain q.env q.kube domain with ⟨_ | sverr, tsv⟩
        · rw [hsvd] at hsv
          dsimp only at hsv ⊢
          rcases hx : q.env.publish (GetStatusSubject q referenceID)
            (statusOf referenceID true "" false) with _ | e
          · rw [hx] at hr
            rcases hsd : SendStatusUpdate q referenceID true "" false with ⟨_ | perr, tp⟩
            · rw [hsd] at hs
              right
              dsimp only at hs ⊢
              simp only [queueCalls_append, hv, hsv, hs]
              exact ⟨rfl, rfl⟩
            · rw [hsd] at hr; simp at hr
          · rw [hx] at hr
            rcases hsd : SendStatusUpdate q referenceID true "" false with ⟨_ | perr, tp⟩
            · rw [hsd] at hr; simp at hr
            · rw [hsd] at hs hr
              right
              dsimp only at hs hr ⊢
              simp only [queueCalls_append, hv, hsv, hs]
              simp only [Option.map_some', Option.some.injEq] at hr
              subst hr
              exact ⟨rfl, rfl⟩
        · rw [hsvd] at hsv
          left
          dsimp only at hsv ⊢
          simp only [queueCalls_append, hv, hsv]
          exact ⟨rfl, by simp⟩
      · dsimp only
        have hc := ValidateTLSCert_no_queue_call q.env domain pc
        have ht := SetTLS_no_queue_call q.env q.kube domain pc
        rcases hcd : ValidateTLSCert q.env domain pc with ⟨_ | cerr, tc⟩
        · rw [hcd] at hc
          dsimp only at hc ⊢
          rcases htd : SetTLS q.env q.kube domain pc with ⟨_ | terr, tt⟩
          · rw [htd] at ht
            dsimp only at ht ⊢
            rcases hsvd : SetVanityDomain q.env q.kube domain with ⟨_ | sverr, tsv⟩
            · rw [hsvd] at hsv
              dsimp only at hsv ⊢
              rcases hx : q.env.publish (GetStatusSubject q referenceID)
                (statusOf referenceID true "" false) with _ | e
              · rw [hx] at hr
                rcases hsd : SendStatusUpdate q referenceID true "" false with ⟨_ | perr, tp⟩
                · rw [hsd] at hs
                  right
                  dsimp only at hs ⊢
                  simp only [queueCalls_append, hv, hc, ht, hsv, hs]
                  exact ⟨rfl, rfl⟩
                · rw [hsd] at hr; simp at hr
              · rw [hx] at hr
                rcases hsd : SendStatusUpdate q referenceID true "" false with ⟨_ | perr, tp⟩
                · rw [hsd] at hr; simp at hr
                · rw [hsd] at hs hr
                  right
                  dsimp only at hs hr ⊢
                  simp only [queueCalls_append, hv, hc, ht, hsv, hs]
                  simp only [Option.map_some', Option.some.injEq] at hr
                  subst hr
                  exact ⟨rfl, rfl⟩
            · rw [hsvd] at hsv
              left
              dsimp only at hsv ⊢
              simp only [queueCalls_append, hv, hc, ht, hsv]
              exact ⟨rfl, by simp⟩
          · rw [htd] at ht
            left
            dsimp only at ht ⊢
            simp only [queueCalls_append, hv, hc, ht]
            exact ⟨rfl, by simp⟩
        · rw [hcd] at hc
          left
          dsimp only at hc ⊢
          simp only [queueCalls_append, hv, hc]
          exact ⟨rfl, by simp⟩
    · rw [hvd] at hv
      left
      dsimp only at hv ⊢
      simp only [queueCalls_append, hv]
      exact ⟨rfl, by simp⟩

theorem UnSetTLS_no_queue_call (env : Env) (c : KubeClient) (job : VanityDomain) :
    queueCalls (UnSetTLS env c job).2 = [] := by
  unfold UnSetTLS
  dsimp only
  split <;> rfl

theorem UnSetVanityDomain_no_queue_call (env : Env) (c : KubeClient) (job : VanityDomain) :
    queueCalls (UnSetVanityDomain env c job).2 = [] := by
  unfold UnSetVanityDomain
  dsimp only
  split <;> rfl

/-- The queue calls of `domainRemove`: none when it stops early with an error,
otherwise the single publish of the success status, whose failure is the error
returned. -/
theorem domainRemove_publish (q : QueueManager) (referenceID : String)
    (domain : VanityDomain) :
    (queueCalls (domainRemove q referenceID domain).2 = [] ∧
      (domainRemove q referenceID domain).1 ≠ none) ∨
    (queueCalls (domainRemove q referenceID domain).2 =
        [Event.publish (GetStatusSubject q referenceID) (statusOf referenceID true "" false)] ∧
      (domainRemove q referenceID domain).1 =
        (q.env.publish (GetStatusSubject q referenceID)
          (statusOf referenceID true "" false)).map
          (fun e => "failed to send status update for " ++ domain.VanityDomain ++ ": " ++
            ("publish status update to " ++ GetStatusSubject q referenceID ++ ": " ++ e))) := by
  have hu := UnSetTLS_no_queue_call q.env q.kube domain
  have huv := UnSetVanityDomain_no_queue_call q.env q.kube domain
  have hs := SendStatusUpdate_queue_calls q referenceID true "" false
  have hr := SendStatusUpdate_result q referenceID true "" false
  unfold domainRemove
  dsimp only
  rcases hud : UnSetTLS q.env q.kube domain with ⟨_ | uerr, tu⟩
  · rw [hud] at hu
    dsimp only at hu ⊢
    rcases huvd : UnSetVanityDomain q.env q.kube domain with ⟨_ | uverr, tuv⟩
    · rw [huvd] at huv
      dsimp only at huv ⊢
      rcases hx : q.env.publish (GetStatusSubject q referenceID)
        (statusOf referenceID true "" false) with _ | e
      · rw [hx] at hr
        rcases hsd : SendStatusUpdate q referenceID true "" false with ⟨_ | perr, tp⟩
        · rw [hsd] at hs
          right
          dsimp only at hs ⊢
          simp only [queueCalls_append, hu, huv, hs]
          exact ⟨rfl, rfl⟩
        · rw [hsd] at hr; simp at hr
      · rw [hx] at hr
        rcases hsd : SendStatusUpdate q referenceID true "" false with ⟨_ | perr, tp⟩
        · rw [hsd] at hr; simp at hr
        · rw [hsd] at hs hr
          right
          dsimp only at hs hr ⊢
          simp only [queueCalls_append, hu, huv, hs]
          simp only [Option.map_some', Option.some.injEq] at hr
          subst hr
          exact ⟨rfl, rfl⟩
    · rw [huvd] at huv
      left
      dsimp only at huv ⊢
      simp only [queueCalls_append, hu, huv]
      exact ⟨rfl, by simp⟩
  · rw [hud] at hu
    left
    dsimp only at hu ⊢
    simp only [queueCalls_append, hu]
    exact ⟨rfl, by simp⟩

/-- A `remove` job whose `domainRemove` returns an error: the handler's calls are
those of `domainRemove` followed by the failure path of `ackornack`. -/
theorem domainJobHandler_remove_error (q : QueueManager) (config : ConsumerConfig)
    (msg : Msg) (job : DomainJob) (err : String)
    (hparse : q.env.unmarshalJob msg.Data = .ok job)
    (htype : job.Type_ = "remove")
    (herr : (domainRemove q job.ReferenceID job.Domain).1 = some err) :
    effects (domainJobHandler q config msg) =
      effects (domainRemove q job.ReferenceID job.Domain).2 ++
        effects (ackornack q config msg job.ReferenceID true err) := by
  unfold domainJobHandler
  simp only [hparse]
  rcases hc : domainRemove q job.ReferenceID job.Domain with ⟨r, tc⟩
  rw [hc] at herr
  simp only at herr
  subst herr
  simp [htype, effects_append, effects_cons, Event.isLog, effects_nil]

theorem mem_queueCalls (e : Event) (t : Trace) :
    e ∈ queueCalls t ↔ e ∈ t ∧ e.isQueueCall = true := by
  simp [queueCalls]

/-- The full trace of the failure path of `ackornack` when the publish of its
status fails. -/
theorem ackornack_publish_failed (q : QueueManager) (config : ConsumerConfig) (msg : Msg)
    (referenceID errorMessage e : String) (dropped : Bool)
    (hd : dropped = decide (msg.NumDelivered ≥ toUint64 config.MaxDeliver))
    (hp : q.env.publish (GetStatusSubject q referenceID)
      (statusOf referenceID false errorMessage dropped) = some e) :
    ackornack q config msg referenceID true errorMessage =
      if msg.NumDelivered ≥ toUint64 config.MaxDeliver then
        [Event.qPrintf "Error: %s" [LogArg.str errorMessage],
         Event.qPrintf "Message %s has reached max retries (%d). Remove from the queue."
           [LogArg.str msg.Subject, LogArg.int config.MaxDeliver],
         Event.publish (GetStatusSubject q referenceID)
           (statusOf referenceID false errorMessage true),
         Event.qPrintf "Failed to send status update for job %s: %s"
           [LogArg.str msg.Subject,
            LogArg.err (some ("publish status update to " ++ GetStatusSubject q referenceID ++
              ": " ++ e))],
         Event.ack]
      else
        [Event.qPrintf "Error: %s" [LogArg.str errorMessage],
         Event.publish (GetStatusSubject q referenceID)
           (statusOf referenceID false errorMessage false),
         Event.qPrintf "Failed to send status update for job %s: %s"
           [LogArg.str msg.Subject,
            LogArg.err (some ("publish status update to " ++ GetStatusSubject q referenceID ++
              ": " ++ e))],
         Event.qPrintf "Message %s will be retried after backoff delay of %v."
           [LogArg.str msg.Subject, LogArg.duration (nakDelay msg.NumDelivered)],
         Event.nakWithDelay (nakDelay msg.NumDelivered)] := by
  unfold ackornack
  by_cases hc : msg.NumDelivered ≥ toUint64 config.MaxDeliver
  · have hdt : dropped = true := by rw [hd]; simp [hc]
    subst hdt
    unfold SendStatusUpdate
    unfold statusOf at hp
    simp [hc, hp, statusOf]
  · have hdt : dropped = false := by rw [hd]; simp [hc]
    subst hdt
    unfold SendStatusUpdate
    unfold statusOf at hp
    simp [hc, hp, statusOf]

/-- C9 (as the code has it): a failed publish of the success status makes
`configureVanityDomain` (for `add` and `change`) and `domainRemove` (for `remove`)
return an error, and below the maximum delivery count the handler then publishes
the failure status and negatively acknowledges the delivery.  A failed publish of
the failure status inside `ackornack` is only logged: below the maximum the
delivery is still negatively acknowledged, and at the maximum, where the status is
the dropped one, the message is acknowledged. -/
theorem status_publish_failure (q : QueueManager) (config : ConsumerConfig) (msg : Msg) :
    (∀ job e, q.env.unmarshalJob msg.Data = .ok job →
      (job.Type_ = "add" ∨ job.Type_ = "change") →
      Event.publish (GetStatusSubject q job.ReferenceID)
          (statusOf job.ReferenceID true "" false) ∈
        (configureVanityDomain q job.ReferenceID job.Domain).2 →
      q.env.publish (GetStatusSubject q job.ReferenceID)
          (statusOf job.ReferenceID true "" false) = some e →
      msg.NumDelivered < toUint64 config.MaxDeliver →
      effects (domainJobHandler q config msg) =
        effects (configureVanityDomain q job.ReferenceID job.Domain).2 ++
          [Event.publish (GetStatusSubject q job.ReferenceID)
            (statusOf job.ReferenceID false
              ("failed to send status update for " ++ job.Domain.VanityDomain ++ ": " ++
                ("publish status update to " ++ GetStatusSubject q job.ReferenceID ++ ": " ++ e))
              false),
           Event.nakWithDelay (nakDelay msg.NumDelivered)]) ∧
    (∀ job e, q.env.unmarshalJob msg.Data = .ok job →
      job.Type_ = "remove" →
      Event.publish (GetStatusSubject q job.ReferenceID)
          (statusOf job.ReferenceID true "" false) ∈
        (domainRemove q job.ReferenceID job.Domain).2 →
      q.env.publish (GetStatusSubject q job.ReferenceID)
          (statusOf job.ReferenceID true "" false) = some e →
      msg.NumDelivered < toUint64 config.MaxDeliver →
      effects (domainJobHandler q config msg) =
        effects (domainRemove q job.ReferenceID job.Domain).2 ++
          [Event.publish (GetStatusSubject q job.ReferenceID)
            (statusOf job.ReferenceID false
              ("failed to send status update for " ++ job.Domain.VanityDomain ++ ": " ++
                ("publish status update to " ++ GetStatusSubject q job.ReferenceID ++ ": " ++ e))
              false),
           Event.nakWithDelay (nakDelay msg.NumDelivered)]) ∧
    (∀ referenceID errorMessage e, msg.NumDelivered < toUint64 config.MaxDeliver →
      q.env.publish (GetStatusSubject q referenceID)
          (statusOf referenceID false errorMessage false) = some e →
      ackornack q config msg referenceID true errorMessage =
        [Event.qPrintf "Error: %s" [LogArg.str errorMessage],
         Event.publish (GetStatusSubject q referenceID)
           (statusOf referenceID false errorMessage false),
         Event.qPrintf "Failed to send status update for job %s: %s"
           [LogArg.str msg.Subject,
            LogArg.err (some ("publish status update to " ++ GetStatusSubject q referenceID ++
              ": " ++ e))],
         Event.qPrintf "Message %s will be retried after backoff delay of %v."
           [LogArg.str msg.Subject, LogArg.duration (nakDelay msg.NumDelivered)],
         Event.nakWithDelay (nakDelay msg.NumDelivered)]) ∧
    (∀ referenceID errorMessage e, msg.NumDelivered ≥ toUint64 config.MaxDeliver →
      q.env.publish (GetStatusSubject q referenceID)
          (statusOf referenceID false errorMessage true) = some e →
      ackornack q config msg referenceID true errorMessage =
        [Event.qPrintf "Error: %s" [LogArg.str errorMessage],
         Event.qPrintf "Message %s has reached max retries (%d). Remove from the queue."
           [LogArg.str msg.Subject, LogArg.int config.MaxDeliver],
         Event.publish (GetStatusSubject q referenceID)
           (statusOf referenceID false errorMessage true),
         Event.qPrintf "Failed to send status update for job %s: %s"
           [LogArg.str msg.Subject,
            LogArg.err (some ("publish status update to " ++ GetStatusSubject q referenceID ++
              ": " ++ e))],
         Event.ack]) := by
  refine ⟨?_, ?_, ?_, ?_⟩
  · intro job e hparse htype hmem hpub hlt
    have hq : Event.publish (GetStatusSubject q job.ReferenceID)
        (statusOf job.ReferenceID true "" false) ∈
        queueCalls (configureVanityDomain q job.ReferenceID job.Domain).2 :=
      (mem_queueCalls _ _).2 ⟨hmem, rfl⟩
    rcases configureVanityDomain_publish q job.ReferenceID job.Domain with ⟨h0, -⟩ | ⟨-, hres⟩
    · rw [h0] at hq; simp at hq
    · rw [hpub] at hres
      rw [domainJobHandler_configure_error q config msg job _ hparse htype hres,
        effects_ackornack_error, if_neg (by omega)]
  · intro job e hparse htype hmem hpub hlt
    have hq : Event.publish (GetStatusSubject q job.ReferenceID)
        (statusOf job.ReferenceID true "" false) ∈
        queueCalls (domainRemove q job.ReferenceID job.Domain).2 :=
      (mem_queueCalls _ _).2 ⟨hmem, rfl⟩
    rcases domainRemove_publish q job.ReferenceID job.Domain with ⟨h0, -⟩ | ⟨-, hres⟩
    · rw [h0] at hq; simp at hq
    · rw [hpub] at hres
      rw [domainJobHandler_remove_error q config msg job _ hparse htype hres,
        effects_ackornack_error, if_neg (by omega)]
  · intro referenceID errorMessage e hlt hp
    rw [ackornack_publish_failed q config msg referenceID errorMessage e false
      (by simp; omega) hp, if_neg (by omega)]
  · intro referenceID errorMessage e hge hp
    rw [ackornack_publish_failed q config msg referenceID errorMessage e true
      (by simp; omega) hp, if_pos hge]

theorem status_publish_failure_witness :
    brokerDownQ.env.publish (GetStatusSubject brokerDownQ sampleJob.ReferenceID)
      (statusOf sampleJob.ReferenceID true "" false) = some "nats: timeout" ∧
    effects (domainJobHandler brokerDownQ (workerConfig brokerDownQ) sampleMsg) =
      effects (configureVanityDomain brokerDownQ sampleJob.ReferenceID sampleJob.Domain).2 ++
        [Event.publish (GetStatusSubject brokerDownQ sampleJob.ReferenceID)
          (statusOf sampleJob.ReferenceID false
            ("failed to send status update for " ++ sampleJob.Domain.VanityDomain ++ ": " ++
              ("publish status update to " ++
                GetStatusSubject brokerDownQ sampleJob.ReferenceID ++ ": " ++ "nats: timeout"))
            false),
         Event.nakWithDelay (nakDelay sampleMsg.NumDelivered)] :=
  ⟨rfl,
   (status_publish_failure brokerDownQ (workerConfig brokerDownQ) sampleMsg).1
     sampleJob "nats: timeout" rfl (Or.inl rfl) (by decide) rfl (by decide)⟩

/-- C9 (counterexample): the tenth delivery of a job whose reconciliation succeeds,
with a broker that refuses every publish: the publish of the success status fails,
the publish of the dropped status fails, and the message is acknowledged. -/
theorem status_lost_yet_acknowledged :
    brokerDownQ.env.publish "prod.vanityDomainVerifier.status.ref-1"
      { Success := true, ReferenceID := "ref-1", ErrorMessage := "", Dropped := false }
      = some "nats: timeout" ∧
    brokerDownQ.env.publish "prod.vanityDomainVerifier.status.ref-1"
      { Success := false, ReferenceID := "ref-1",
        ErrorMessage := "failed to send status update for shop.example.com: publish status update to prod.vanityDomainVerifier.status.ref-1: nats: timeout",
        Dropped := true }
      = some "nats: timeout" ∧
    queueCalls (domainJobHandler brokerDownQ (workerConfig brokerDownQ) tenthMsg) =
      [Event.publish "prod.vanityDomainVerifier.status.ref-1"
        { Success := true, ReferenceID := "ref-1", ErrorMessage := "", Dropped := false },
       Event.publish "prod.vanityDomainVerifier.status.ref-1"
        { Success := false, ReferenceID := "ref-1",
          ErrorMessage := "failed to send status update for shop.example.com: publish status update to prod.vanityDomainVerifier.status.ref-1: nats: timeout",
          Dropped := true },
       Event.ack] :=
  ⟨rfl, rfl, by decide⟩

/-! ## The secret is written before the route -/

theorem SendStatusUpdate_no_cluster_call (q : QueueManager) (referenceID : String)
    (success : Bool) (errorMessage : String) (dropped : Bool) :
    clusterCalls (SendStatusUpdate q referenceID success errorMessage dropped).2 = [] := by
  unfold SendStatusUpdate
  dsimp only
  split <;> rfl

/-- The cluster calls of `SetTLS`: the fetch of the secret, then its creation or its
update, with the secret built for the host name. -/
theorem SetTLS_cluster_calls (env : Env) (c : KubeClient) (job : VanityDomain)
    (pc : DomainCustomCert) :
    clusterCalls (SetTLS env c job pc).2 =
      [Event.secretGet c.Namespace (safeDomainName job.VanityDomain ++ "-tls-cert"),
       if (env.secretGet c.Namespace (safeDomainName job.VanityDomain ++ "-tls-cert")).2 ≠ none ∧
          stringsContains
            (fmtErr (env.secretGet c.Namespace (safeDomainName job.VanityDomain ++ "-tls-cert")).2)
            "not found" = true
       then Event.secretCreate c.Namespace (tlsSecret c job pc)
       else Event.secretUpdate c.Namespace (tlsSecret c job pc)] := by
  by_cases h : (env.secretGet c.Namespace (safeDomainName job.VanityDomain ++ "-tls-cert")).2
      ≠ none ∧
    stringsContains
      (fmtErr (env.secretGet c.Namespace (safeDomainName job.VanityDomain ++ "-tls-cert")).2)
      "not found" = true
  · rw [SetTLS_create_trace env c job pc h, if_pos h]
    rfl
  · rw [SetTLS_update_trace env c job pc h, if_neg h]
    dsimp only
    split_ifs <;> rfl

/-- The cluster calls of `SetVanityDomain`: the fetch of the ingress, then its
creation or its update, in both cases with the spec built for the host name. -/
theorem SetVanityDomain_cluster_calls (env : Env) (c : KubeClient) (job : VanityDomain) :
    clusterCalls (SetVanityDomain env c job).2 =
      [Event.ingressGet c.Namespace (safeDomainName job.VanityDomain),
       if (env.ingressGet c.Namespace (safeDomainName job.VanityDomain)).2 ≠ none ∧
          stringsContains
            (fmtErr (env.ingressGet c.Namespace (safeDomainName job.VanityDomain)).2)
            "not found" = true
       then Event.ingressCreate c.Namespace (vanityIngress c job)
       else Event.ingressUpdate c.Namespace
          { ObjectMeta :=
              { (env.ingressGet c.Namespace (safeDomainName job.VanityDomain)).1.ObjectMeta with
                Annotations := (vanityIngress c job).ObjectMeta.Annotations
                Labels := (vanityIngress c job).ObjectMeta.Labels }
            Spec := (vanityIngress c job).Spec }] := by
  by_cases h : (env.ingressGet c.Namespace (safeDomainName job.VanityDomain)).2 ≠ none ∧
    stringsContains (fmtErr (env.ingressGet c.Namespace (safeDomainName job.VanityDomain)).2)
      "not found" = true
  · rw [SetVanityDomain_create_trace env c job h, if_pos h]
    rfl
  · rw [SetVanityDomain_update_trace env c job h, if_neg h]
    dsimp only
    split_ifs <;> rfl

/-- C10: for a job with a supplied certificate whose shape check, DNS verification
and certificate validation pass, `configureVanityDomain` runs `SetTLS` first: when
`SetTLS` fails its error is returned and the cluster calls are those of `SetTLS`
alone, otherwise they are those of `SetTLS` followed by those of
`SetVanityDomain`.  The secret written is named `safeDomainName(host)-tls-cert`,
and that is the `SecretName` of the TLS entry of the ingress written. -/
theorem configure_secret_before_route (q : QueueManager) (referenceID : String)
    (domain : VanityDomain) (pc : DomainCustomCert)
    (hshape : ¬ (domain.VanityDomain = "" ∨
      (domain.DesiredARecordTargets.length = 0 ∧ domain.DesiredCNAMETarget = "") ∨
      domain.DesiredDNSTargetType = ""))
    (hpc : domain.ProvidedCertificate = some pc)
    (hv : (VerifyDomain q.env domain).1 = none)
    (hc : (ValidateTLSCert q.env domain pc).1 = none) :
    (∀ e, (SetTLS q.env q.kube domain pc).1 = some e →
      (configureVanityDomain q referenceID domain).1 =
        some ("Failed to set TLS for " ++ domain.VanityDomain ++ ": " ++ e) ∧
      clusterCalls (configureVanityDomain q referenceID domain).2 =
        clusterCalls (SetTLS q.env q.kube domain pc).2) ∧
    ((SetTLS q.env q.kube domain pc).1 = none →
      clusterCalls (configureVanityDomain q referenceID domain).2 =
        clusterCalls (SetTLS q.env q.kube domain pc).2 ++
          clusterCalls (SetVanityDomain q.env q.kube domain).2) ∧
    (∃ w, clusterCalls (SetTLS q.env q.kube domain pc).2 =
        [Event.secretGet q.kube.Namespace (safeDomainName domain.VanityDomain ++ "-tls-cert"), w] ∧
      (w = Event.secretCreate q.kube.Namespace (tlsSecret q.kube domain pc) ∨
       w = Event.secretUpdate q.kube.Namespace (tlsSecret q.kube domain pc))) ∧
    (∃ w, clusterCalls (SetVanityDomain q.env q.kube domain).2 =
        [Event.ingressGet q.kube.Namespace (safeDomainName domain.VanityDomain), w] ∧
      ∃ i, (w = Event.ingressCreate q.kube.Namespace i ∨
            w = Event.ingressUpdate q.kube.Namespace i) ∧
        i.Spec.TLS = [{ Hosts := [domain.VanityDomain],
                        SecretName := (tlsSecret q.kube domain pc).ObjectMeta.Name }]) ∧
    (tlsSecret q.kube domain pc).ObjectMeta.Name =
      safeDomainName domain.VanityDomain ++ "-tls-cert" := by
  have hvc := VerifyDomain_no_cluster_call q.env domain
  have hcc := ValidateTLSCert_no_cluster_call q.env domain pc
  have hsc := SendStatusUpdate_no_cluster_call q referenceID true "" false
  refine ⟨?_, ?_, ?_, ?_, rfl⟩
  · intro e he
    unfold configureVanityDomain
    dsimp only
    rw [if_neg hshape]
    rcases hvd : VerifyDomain q.env domain with ⟨rv, tv⟩
    rw [hvd] at hv hvc
    dsimp only at hv hvc
    subst hv
    rcases hcd : ValidateTLSCert q.env domain pc with ⟨rc, tc⟩
    rw [hcd] at hc hcc
    dsimp only at hc hcc
    subst hc
    rcases htd : SetTLS q.env q.kube domain pc with ⟨rt, tt⟩
    rw [htd] at he
    dsimp only at he
    subst he
    simp only [hpc, hcd, htd]
    refine ⟨trivial, ?_⟩
    simp only [clusterCalls_append, hvc, hcc]
    rfl
  · intro he
    unfold configureVanityDomain
    dsimp only
    rw [if_neg hshape]
    rcases hvd : VerifyDomain q.env domain with ⟨rv, tv⟩
    rw [hvd] at hv hvc
    dsimp only at hv hvc
    subst hv
    rcases hcd : ValidateTLSCert q.env domain pc with ⟨rc, tc⟩
    rw [hcd] at hc hcc
    dsimp only at hc hcc
    subst hc
    rcases htd : SetTLS q.env q.kube domain pc with ⟨rt, tt⟩
    rw [htd] at he
    dsimp only at he
    subst he
    simp only [hpc, hcd, htd]
    rcases hsvd : SetVanityDomain q.env q.kube domain with ⟨_ | sverr, tsv⟩
    · dsimp only
      rcases hsd : SendStatusUpdate q referenceID true "" false with ⟨_ | perr, tp⟩
      · rw [hsd] at hsc
        dsimp only at hsc ⊢
        simp only [clusterCalls_append, hvc, hcc, hsc]
        simp [clusterCalls, Event.isClusterCall]
      · rw [hsd] at hsc
        dsimp only at hsc ⊢
        simp only [clusterCalls_append, hvc, hcc, hsc]
        simp [clusterCalls, Event.isClusterCall]
    · dsimp only
      simp only [clusterCalls_append, hvc, hcc]
      simp [clusterCalls, Event.isClusterCall]
  · rw [SetTLS_cluster_calls]
    refine ⟨_, rfl, ?_⟩
    split_ifs
    · exact Or.inl rfl
    · exact Or.inr rfl
  · rw [SetVanityDomain_cluster_calls]
    refine ⟨_, rfl, ?_⟩
    split_ifs
    · exact ⟨_, Or.inl rfl, rfl⟩
    · exact ⟨_, Or.inr rfl, rfl⟩

theorem configure_secret_before_route_witness :
    sampleDomain.ProvidedCertificate = some { Key := "KEY", Cert := "CERT" } ∧
    (VerifyDomain sampleQ.env sampleDomain).1 = none ∧
    (ValidateTLSCert sampleQ.env sampleDomain { Key := "KEY", Cert := "CERT" }).1 = none ∧
    (SetTLS sampleQ.env sampleQ.kube sampleDomain { Key := "KEY", Cert := "CERT" }).1 = none ∧
    clusterCalls (configureVanityDomain sampleQ "ref-1" sampleDomain).2 =
      clusterCalls (SetTLS sampleQ.env sampleQ.kube sampleDomain
          { Key := "KEY", Cert := "CERT" }).2 ++
        clusterCalls (SetVanityDomain sampleQ.env sampleQ.kube sampleDomain).2 :=
  ⟨rfl, by decide, by decide, by decide,
   (configure_secret_before_route sampleQ "ref-1" sampleDomain { Key := "KEY", Cert := "CERT" }
      (by decide) rfl (by decide) (by decide)).2.1 (by decide)⟩

/-! ## Removal -/

/-- `UnSetTLS` makes one call, the delete of the secret, and returns its error
unless the error is absent or its text contains `not found`. -/
theorem UnSetTLS_eq (env : Env) (c : KubeClient) (job : VanityDomain) :
    UnSetTLS env c job =
      (if (env.secretDelete c.Namespace (safeDomainName job.VanityDomain ++ "-tls-cert")) ≠ none ∧
          ¬ (stringsContains (fmtErr
            (env.secretDelete c.Namespace (safeDomainName job.VanityDomain ++ "-tls-cert")))
            "not found" = true)
       then env.secretDelete c.Namespace (safeDomainName job.VanityDomain ++ "-tls-cert")
       else none,
       [Event.secretDelete c.Namespace (safeDomainName job.VanityDomain ++ "-tls-cert")]) := by
  unfold UnSetTLS
  dsimp only
  split_ifs <;> rfl

/-- `UnSetVanityDomain` makes one call, the delete of the ingress, and returns its
error unless the error is absent or its text contains `not found`. -/
theorem UnSetVanityDomain_eq (env : Env) (c : KubeClient) (job : VanityDomain) :
    UnSetVanityDomain env c job =
      (if (env.ingressDelete c.Namespace (safeDomainName job.VanityDomain)) ≠ none ∧
          ¬ (stringsContains (fmtErr
            (env.ingressDelete c.Namespace (safeDomainName job.VanityDomain))) "not found" = true)
       then env.ingressDelete c.Namespace (safeDomainName job.VanityDomain)
       else none,
       [Event.ingressDelete c.Namespace (safeDomainName job.VanityDomain)]) := by
  unfold UnSetVanityDomain
  dsimp only
  split_ifs <;> rfl

/-- The calls of `domainRemove` other than logging: the delete of the secret, then,
if `UnSetTLS` returned no error, the delete of the ingress, then, if
`UnSetVanityDomain` returned no error, the publish of the success status. -/
theorem effects_domainRemove (q : QueueManager) (referenceID : String)
    (domain : VanityDomain) :
    effects (domainRemove q referenceID domain).2 =
      Event.secretDelete q.kube.Namespace (safeDomainName domain.VanityDomain ++ "-tls-cert") ::
        (if (UnSetTLS q.env q.kube domain).1 = none then
          Event.ingressDelete q.kube.Namespace (safeDomainName domain.VanityDomain) ::
            (if (UnSetVanityDomain q.env q.kube domain).1 = none then
              [Event.publish (GetStatusSubject q referenceID)
                (statusOf referenceID true "" false)]
             else [])
         else []) := by
  have hs := effects_SendStatusUpdate q referenceID true "" false
  have hu : (UnSetTLS q.env q.kube domain).2 =
      [Event.secretDelete q.kube.Namespace (safeDomainName domain.VanityDomain ++ "-tls-cert")] := by
    rw [UnSetTLS_eq]
  have huv : (UnSetVanityDomain q.env q.kube domain).2 =
      [Event.ingressDelete q.kube.Namespace (safeDomainName domain.VanityDomain)] := by
    rw [UnSetVanityDomain_eq]
  unfold domainRemove
  dsimp only
  rcases hud : UnSetTLS q.env q.kube domain with ⟨_ | uerr, tu⟩
  · rw [hud] at hu
    dsimp only at hu ⊢
    subst hu
    rcases huvd : UnSetVanityDomain q.env q.kube domain with ⟨_ | uverr, tuv⟩
    · rw [huvd] at huv
      dsimp only at huv ⊢
      subst huv
      rcases hsd : SendStatusUpdate q referenceID true "" false with ⟨_ | perr, tp⟩
      · rw [hsd] at hs
        dsimp only at hs ⊢
        simp only [effects_append, hs]
        simp [effects, Event.isLog]
      · rw [hsd] at hs
        dsimp only at hs ⊢
        simp only [effects_append, hs]
        simp [effects, Event.isLog]
    · rw [huvd] at huv
      dsimp only at huv ⊢
      subst huv
      simp [effects, Event.isLog]
  · rw [hud] at hu
    dsimp only at hu ⊢
    subst hu
    simp [effects, Event.isLog]

/-- The result of `domainRemove` when neither delete returns an error: that of the
publish of the success status. -/
theorem domainRemove_result (q : QueueManager) (referenceID : String)
    (domain : VanityDomain)
    (h1 : (UnSetTLS q.env q.kube domain).1 = none)
    (h2 : (UnSetVanityDomain q.env q.kube domain).1 = none) :
    (domainRemove q referenceID domain).1 =
      (q.env.publish (GetStatusSubject q referenceID)
        (statusOf referenceID true "" false)).map
        (fun e => "failed to send status update for " ++ domain.VanityDomain ++ ": " ++
          ("publish status update to " ++ GetStatusSubject q referenceID ++ ": " ++ e)) := by
  rcases domainRemove_publish q referenceID domain with ⟨h0, -⟩ | ⟨-, hres⟩
  · have he := effects_domainRemove q referenceID domain
    rw [if_pos h1, if_pos h2] at he
    have hm : Event.publish (GetStatusSubject q referenceID)
        (statusOf referenceID true "" false) ∈ effects (domainRemove q referenceID domain).2 := by
      rw [he]; simp
    have hq : Event.publish (GetStatusSubject q referenceID)
        (statusOf referenceID true "" false) ∈
        queueCalls (domainRemove q referenceID domain).2 :=
      (mem_queueCalls _ _).2 ⟨((mem_effects _ _).1 hm).1, rfl⟩
    rw [h0] at hq
    simp at hq
  · exact hres

theorem UnSetTLS_absent (env : Env) (c : KubeClient) (job : VanityDomain)
    (h : env.secretDelete c.Namespace (safeDomainName job.VanityDomain ++ "-tls-cert") = none ∨
      ∃ e, env.secretDelete c.Namespace (safeDomainName job.VanityDomain ++ "-tls-cert") = some e ∧
        stringsContains e "not found" = true) :
    (UnSetTLS env c job).1 = none := by
  rw [UnSetTLS_eq]
  rcases h with h | ⟨e, h, hc⟩
  · simp [h]
  · simp [h, fmtErr, hc]

theorem UnSetVanityDomain_absent (env : Env) (c : KubeClient) (job : VanityDomain)
    (h : env.ingressDelete c.Namespace (safeDomainName job.VanityDomain) = none ∨
      ∃ e, env.ingressDelete c.Namespace (safeDomainName job.VanityDomain) = some e ∧
        stringsContains e "not found" = true) :
    (UnSetVanityDomain env c job).1 = none := by
  rw [UnSetVanityDomain_eq]
  rcases h with h | ⟨e, h, hc⟩
  · simp [h]
  · simp [h, fmtErr, hc]

/-- C11 (as the code has it): `domainRemove` deletes the secret (`UnSetTLS`) before
the ingress (`UnSetVanityDomain`) and makes no other call than these two deletes
and the publish of the success status, so no DNS lookup and no certificate
validation.  A delete error whose text contains `not found` makes `UnSetTLS`, and
`UnSetVanityDomain`, return no error.  When both deletes answer with no error or
with not-found, as for a domain that is already absent, `domainRemove` goes through
both deletes to the publish of the success status and returns what that publish
gives: no error when the status is published, the publish error otherwise. -/
theorem domainRemove_teardown (q : QueueManager) (referenceID : String)
    (domain : VanityDomain) :
    effects (domainRemove q referenceID domain).2 =
      Event.secretDelete q.kube.Namespace (safeDomainName domain.VanityDomain ++ "-tls-cert") ::
        (if (UnSetTLS q.env q.kube domain).1 = none then
          Event.ingressDelete q.kube.Namespace (safeDomainName domain.VanityDomain) ::
            (if (UnSetVanityDomain q.env q.kube domain).1 = none then
              [Event.publish (GetStatusSubject q referenceID)
                (statusOf referenceID true "" false)]
             else [])
         else []) ∧
    (∀ e, q.env.secretDelete q.kube.Namespace
          (safeDomainName domain.VanityDomain ++ "-tls-cert") = some e →
        stringsContains e "not found" = true →
        (UnSetTLS q.env q.kube domain).1 = none) ∧
    (∀ e, q.env.ingressDelete q.kube.Namespace (safeDomainName domain.VanityDomain) = some e →
        stringsContains e "not found" = true →
        (UnSetVanityDomain q.env q.kube domain).1 = none) ∧
    ((q.env.secretDelete q.kube.Namespace
          (safeDomainName domain.VanityDomain ++ "-tls-cert") = none ∨
        ∃ e, q.env.secretDelete q.kube.Namespace
          (safeDomainName domain.VanityDomain ++ "-tls-cert") = some e ∧
          stringsContains e "not found" = true) →
      (q.env.ingressDelete q.kube.Namespace (safeDomainName domain.VanityDomain) = none ∨
        ∃ e, q.env.ingressDelete q.kube.Namespace (safeDomainName domain.VanityDomain) = some e ∧
          stringsContains e "not found" = true) →
      effects (domainRemove q referenceID domain).2 =
        [Event.secretDelete q.kube.Namespace (safeDomainName domain.VanityDomain ++ "-tls-cert"),
         Event.ingressDelete q.kube.Namespace (safeDomainName domain.VanityDomain),
         Event.publish (GetStatusSubject q referenceID) (statusOf referenceID true "" false)] ∧
      (domainRemove q referenceID domain).1 =
        (q.env.publish (GetStatusSubject q referenceID)
          (statusOf referenceID true "" false)).map
          (fun e => "failed to send status update for " ++ domain.VanityDomain ++ ": " ++
            ("publish status update to " ++ GetStatusSubject q referenceID ++ ": " ++ e)) ∧
      (q.env.publish (GetStatusSubject q referenceID)
          (statusOf referenceID true "" false) = none →
        (domainRemove q referenceID domain).1 = none)) := by
  refine ⟨effects_domainRemove q referenceID domain, ?_, ?_, ?_⟩
  · intro e he hc
    exact UnSetTLS_absent q.env q.kube domain (Or.inr ⟨e, he, hc⟩)
  · intro e he hc
    exact UnSetVanityDomain_absent q.env q.kube domain (Or.inr ⟨e, he, hc⟩)
  · intro hs hi
    have h1 := UnSetTLS_absent q.env q.kube domain hs
    have h2 := UnSetVanityDomain_absent q.env q.kube domain hi
    have hres := domainRemove_result q referenceID domain h1 h2
    refine ⟨?_, hres, ?_⟩
    · rw [effects_domainRemove, if_pos h1, if_pos h2]
    · intro hp
      rw [hres, hp]
      rfl

theorem domainRemove_teardown_witness :
    absentQ.env.secretDelete absentQ.kube.Namespace
      (safeDomainName sampleDomain.VanityDomain ++ "-tls-cert")
      = some "secrets shop-example-com-tls-cert not found" ∧
    absentQ.env.ingressDelete absentQ.kube.Namespace (safeDomainName sampleDomain.VanityDomain)
      = some "ingresses shop-example-com not found" ∧
    effects (domainRemove absentQ "ref-1" sampleDomain).2 =
      [Event.secretDelete absentQ.kube.Namespace
        (safeDomainName sampleDomain.VanityDomain ++ "-tls-cert"),
       Event.ingressDelete absentQ.kube.Namespace (safeDomainName sampleDomain.VanityDomain),
       Event.publish (GetStatusSubject absentQ "ref-1") (statusOf "ref-1" true "" false)] ∧
    (domainRemove absentQ "ref-1" sampleDomain).1 = none :=
  ⟨rfl, rfl,
   ((domainRemove_teardown absentQ "ref-1" sampleDomain).2.2.2
      (Or.inr ⟨_, rfl, by decide⟩) (Or.inr ⟨_, rfl, by decide⟩)).1,
   ((domainRemove_teardown absentQ "ref-1" sampleDomain).2.2.2
      (Or.inr ⟨_, rfl, by decide⟩) (Or.inr ⟨_, rfl, by decide⟩)).2.2 rfl⟩

/-- C11 (counterexample): the secret and the ingress are already absent, both
deletes answer not-found, and the broker refuses the publish of the success status:
`domainRemove` returns an error. -/
theorem domainRemove_absent_publish_error :
    absentDownQ.env.secretDelete "vanity" "shop-example-com-tls-cert"
      = some "secrets shop-example-com-tls-cert not found" ∧
    absentDownQ.env.ingressDelete "vanity" "shop-example-com"
      = some "ingresses shop-example-com not found" ∧
    (UnSetTLS absentDownQ.env absentDownQ.kube sampleDomain).1 = none ∧
    (UnSetVanityDomain absentDownQ.env absentDownQ.kube sampleDomain).1 = none ∧
    effects (domainRemove absentDownQ "ref-1" sampleDomain).2 =
      [Event.secretDelete "vanity" "shop-example-com-tls-cert",
       Event.ingressDelete "vanity" "shop-example-com",
       Event.publish "prod.vanityDomainVerifier.status.ref-1"
        { Success := true, ReferenceID := "ref-1", ErrorMessage := "", Dropped := false }] ∧
    (domainRemove absentDownQ "ref-1" sampleDomain).1 =
      some "failed to send status update for shop.example.com: publish status update to prod.vanityDomainVerifier.status.ref-1: nats: timeout" := by
  decide

/-! ## Job shape validation -/

/-- C12: a job whose host name is empty, or whose target type is empty, or whose
CNAME target and A-record targets are both empty: `configureVanityDomain` logs its
first line and returns the validation error.  Its trace holds no other event, so no
DNS lookup, no certificate validation and no cluster call is made, and the result
does not depend on what the outside world would answer. -/
theorem configureVanityDomain_invalid_job (q : QueueManager) (referenceID : String)
    (domain : VanityDomain)
    (h : domain.VanityDomain = "" ∨ domain.DesiredDNSTargetType = "" ∨
      (domain.DesiredCNAMETarget = "" ∧ domain.DesiredARecordTargets = [])) :
    configureVanityDomain q referenceID domain =
      (some ("Invalid job data for vanity domain: " ++ domain.VanityDomain ++ ", skipping"),
        [Event.qPrintf "Configuring Vanity Domain %s ..." [LogArg.str domain.VanityDomain]]) ∧
    effects (configureVanityDomain q referenceID domain).2 = [] := by
  have hshape : domain.VanityDomain = "" ∨
      (domain.DesiredARecordTargets.length = 0 ∧ domain.DesiredCNAMETarget = "") ∨
      domain.DesiredDNSTargetType = "" := by
    rcases h with h | h | ⟨h1, h2⟩
    · exact Or.inl h
    · exact Or.inr (Or.inr h)
    · exact Or.inr (Or.inl ⟨by rw [h2]; rfl, h1⟩)
  have heq : configureVanityDomain q referenceID domain =
      (some ("Invalid job data for vanity domain: " ++ domain.VanityDomain ++ ", skipping"),
        [Event.qPrintf "Configuring Vanity Domain %s ..." [LogArg.str domain.VanityDomain]]) := by
    unfold configureVanityDomain
    dsimp only
    rw [if_pos hshape]
  refine ⟨heq, ?_⟩
  rw [heq]
  rfl

theorem configureVanityDomain_invalid_job_witness :
    ({ sampleDomain with VanityDomain := "" } : VanityDomain).VanityDomain = "" ∧
    configureVanityDomain sampleQ "ref-1" { sampleDomain with VanityDomain := "" } =
      (some ("Invalid job data for vanity domain: " ++
          ({ sampleDomain with VanityDomain := "" } : VanityDomain).VanityDomain ++ ", skipping"),
        [Event.qPrintf "Configuring Vanity Domain %s ..."
          [LogArg.str ({ sampleDomain with VanityDomain := "" } : VanityDomain).VanityDomain]]) ∧
    effects (configureVanityDomain sampleQ "ref-1"
      { sampleDomain with VanityDomain := "" }).2 = [] :=
  ⟨rfl, configureVanityDomain_invalid_job sampleQ "ref-1"
    { sampleDomain with VanityDomain := "" } (Or.inl rfl)⟩

/-! ## The issuer annotation -/

/-- C13: the ingress that `SetVanityDomain` writes, on the create path and on the
update path alike, carries under `cert-manager.io/cluster-issuer` the configured
issuer exactly when no certificate is provided and the issuer is not empty; with a
certificate provided it carries no annotation. -/
theorem SetVanityDomain_issuer_annotation (env : Env) (c : KubeClient) (job : VanityDomain) :
    ∃ w i,
      clusterCalls (SetVanityDomain env c job).2 =
        [Event.ingressGet c.Namespace (safeDomainName job.VanityDomain), w] ∧
      (w = Event.ingressCreate c.Namespace i ∨ w = Event.ingressUpdate c.Namespace i) ∧
      (∀ v, ("cert-manager.io/cluster-issuer", v) ∈ i.ObjectMeta.Annotations ↔
        (v = c.CertManagerIssuer ∧ job.ProvidedCertificate = none ∧ c.CertManagerIssuer ≠ "")) ∧
      (∀ k v, (k, v) ∈ i.ObjectMeta.Annotations → k = "cert-manager.io/cluster-issuer") ∧
      (job.ProvidedCertificate ≠ none → i.ObjectMeta.Annotations = []) := by
  have hann : ∀ i : Ingress,
      i.ObjectMeta.Annotations = (vanityIngress c job).ObjectMeta.Annotations →
      (∀ v, ("cert-manager.io/cluster-issuer", v) ∈ i.ObjectMeta.Annotations ↔
        (v = c.CertManagerIssuer ∧ job.ProvidedCertificate = none ∧ c.CertManagerIssuer ≠ "")) ∧
      (∀ k v, (k, v) ∈ i.ObjectMeta.Annotations → k = "cert-manager.io/cluster-issuer") ∧
      (job.ProvidedCertificate ≠ none → i.ObjectMeta.Annotations = []) := by
    intro i hi
    rw [hi]
    unfold vanityIngress
    dsimp only
    by_cases hcond : job.ProvidedCertificate = none ∧ c.CertManagerIssuer ≠ ""
    · rw [if_pos hcond]
      refine ⟨?_, ?_, ?_⟩
      · intro v
        simp only [List.mem_singleton, Prod.mk.injEq, true_and]
        exact ⟨fun hv => ⟨hv, hcond⟩, fun hv => hv.1⟩
      · intro k v hkv
        simp only [List.mem_singleton, Prod.mk.injEq] at hkv
        exact hkv.1
      · intro hne
        exact absurd hcond.1 hne
    · rw [if_neg hcond]
      refine ⟨?_, ?_, ?_⟩
      · intro v
        simp only [List.not_mem_nil, false_iff]
        exact fun hv => hcond hv.2
      · intro k v hkv
        simp at hkv
      · intro _
        rfl
  rw [SetVanityDomain_cluster_calls]
  split_ifs
  · exact ⟨_, vanityIngress c job, rfl, Or.inl rfl, hann _ rfl⟩
  · exact ⟨_, _, rfl, Or.inr rfl, hann _ rfl⟩

/-! ## Configuration validation -/

/-- C14: `validate` returns no error exactly when the NATS connection string, the
system environment, the cluster namespace and the cluster service name are not
empty and the cluster service port is positive; so it fails when the namespace or
the service name is empty or the port is zero or negative, and likewise for an
empty connection string or environment.  Its result does not depend on
`CertManagerIssuer`.  `Load` returns the result of `validate` on the configuration
it has read and parsed. -/
theorem config_validate_iff (c : config) :
    (c.validate = none ↔
      (c.NatsConfig.ConnectionString ≠ "" ∧ c.SystemConfig.Environment ≠ "" ∧
        c.ClusterConfig.Namespace ≠ "" ∧ c.ClusterConfig.ServiceName ≠ "" ∧
        0 < c.ClusterConfig.ServicePort)) ∧
    ((c.ClusterConfig.Namespace = "" ∨ c.ClusterConfig.ServiceName = "" ∨
        c.ClusterConfig.ServicePort ≤ 0 ∨ c.NatsConfig.ConnectionString = "" ∨
        c.SystemConfig.Environment = "") →
      c.validate ≠ none) ∧
    (∀ issuer : String,
      config.validate
        { c with ClusterConfig := { c.ClusterConfig with CertManagerIssuer := issuer } } =
      c.validate) ∧
    (∀ (fs : ConfigFiles) (filePath data : String),
      fs.readFile filePath = .ok data → fs.yamlUnmarshal data = .ok c →
      Load fs filePath = LoadOutcome.stored c c.validate) := by
  have hiff : c.validate = none ↔
      (c.NatsConfig.ConnectionString ≠ "" ∧ c.SystemConfig.Environment ≠ "" ∧
        c.ClusterConfig.Namespace ≠ "" ∧ c.ClusterConfig.ServiceName ≠ "" ∧
        0 < c.ClusterConfig.ServicePort) := by
    unfold config.validate
    split_ifs with h1 h2 h3 h4 h5
    · simp [h1]
    · simp [h2]
    · simp [h3]
    · simp [h4]
    · simp only [reduceCtorEq, false_iff, not_and, not_lt]
      exact fun _ _ _ _ => h5
    · simp only [true_iff]
      exact ⟨h1, h2, h3, h4, by omega⟩
  refine ⟨hiff, ?_, ?_, ?_⟩
  · intro h hnone
    obtain ⟨h1, h2, h3, h4, h5⟩ := hiff.mp hnone
    rcases h with h | h | h | h | h
    · exact h3 h
    · exact h4 h
    · omega
    · exact h1 h
    · exact h2 h
  · intro issuer
    rfl
  · intro fs filePath data hr hy
    unfold Load
    rw [hr]
    dsimp only
    rw [hy]

theorem config_validate_iff_witness :
    sampleFiles.readFile "invalid.yaml" = .ok "invalid.yaml" ∧
    sampleFiles.yamlUnmarshal "invalid.yaml" = .ok testInvalidConfig ∧
    Load sampleFiles "invalid.yaml" =
      LoadOutcome.stored testInvalidConfig testInvalidConfig.validate ∧
    testInvalidConfig.validate = some "cluster namespace cannot be empty" ∧
    testValidConfig.validate = none :=
  ⟨rfl, rfl,
   (config_validate_iff testInvalidConfig).2.2.2 sampleFiles "invalid.yaml" "invalid.yaml"
     rfl rfl,
   by decide, by decide⟩

/-! ## Jobs of an unknown type -/

/-- C15: a job that decodes and whose type is none of `add`, `change` and
`remove`: the handler logs the reception and the success line and acknowledges the
message; it makes no lookup, no certificate validation, no cluster call and no
publish. -/
theorem domainJobHandler_unknown_type (q : QueueManager) (config : ConsumerConfig)
    (msg : Msg) (job : DomainJob)
    (hparse : q.env.unmarshalJob msg.Data = .ok job)
    (hadd : job.Type_ ≠ "add") (hchange : job.Type_ ≠ "change")
    (hremove : job.Type_ ≠ "remove") :
    domainJobHandler q config msg =
      [Event.qPrintf "Received message on subject %s" [LogArg.str msg.Subject],
       Event.qPrintln [LogArg.str "Message Processed Successfully"],
       Event.ack] ∧
    effects (domainJobHandler q config msg) = [Event.ack] := by
  have heq : domainJobHandler q config msg =
      [Event.qPrintf "Received message on subject %s" [LogArg.str msg.Subject],
       Event.qPrintln [LogArg.str "Message Processed Successfully"],
       Event.ack] := by
    unfold domainJobHandler
    simp only [hparse]
    rw [if_neg hadd, if_neg hchange, if_neg hremove]
    rfl
  refine ⟨heq, ?_⟩
  rw [heq]
  rfl

theorem domainJobHandler_unknown_type_witness :
    purgeQ.env.unmarshalJob sampleMsg.Data = .ok purgeJob ∧
    purgeJob.Type_ = "purge" ∧
    domainJobHandler purgeQ (workerConfig purgeQ) sampleMsg =
      [Event.qPrintf "Received message on subject %s" [LogArg.str sampleMsg.Subject],
       Event.qPrintln [LogArg.str "Message Processed Successfully"],
       Event.ack] ∧
    effects (domainJobHandler purgeQ (workerConfig purgeQ) sampleMsg) = [Event.ack] :=
  ⟨rfl, rfl,
   domainJobHandler_unknown_type purgeQ (workerConfig purgeQ) sampleMsg purgeJob rfl
     (by decide) (by decide) (by decide)⟩

end VanityDomainManager
